import Mathlib

/-!
# Verification of tiny-AES128-C (masked-S-box variant)

A shallow embedding of `src/aes.c`: AES-128 with a first-order Boolean-masked
forward S-box, ECB and CBC drivers.  Bytes (`uint8_t`) are modelled as
`Fin 256`; every C assignment to a `uint8_t` is mirrored by an operation that
provably stays below 256 (with an explicit `% 256` wherever the C code
truncates a wider intermediate).  Byte buffers are modelled as functions from
indices to bytes; the C cast of a 16-byte buffer to `state_t` is the
identification `state i j = buf[4*i + j]`.

The three 256-entry `const uint8_t` tables of the source are kept verbatim as
`List` literals, and additionally packed little-endian into single naturals
(byte `i` at bit offset `8*i`) which the executable definitions use for
lookups; theorems `sbox_getD_eq` / `rsbox_getD_eq` / `Rcon_getD_eq` prove the
packed constants agree with the literal tables entry by entry.
-/

namespace TinyAES

/-- `uint8_t`: a byte. -/
abbrev Byte := Fin 256

/-- C `x ^ y` on bytes. -/
def bxor (a b : Byte) : Byte :=
  ⟨a.val ^^^ b.val, by exact Nat.xor_lt_two_pow (n := 8) a.isLt b.isLt⟩

/-- C `x & y` on bytes. -/
def band (a b : Byte) : Byte :=
  ⟨a.val &&& b.val, Nat.lt_of_le_of_lt Nat.and_le_left a.isLt⟩

/-- C `x >> k` on bytes. -/
def bshr (a : Byte) (k : Nat) : Byte :=
  ⟨a.val >>> k, by
    rw [Nat.shiftRight_eq_div_pow]
    exact Nat.lt_of_le_of_lt (Nat.div_le_self _ _) a.isLt⟩

/-- C `~x` truncated back to a byte: flips all 8 bits. -/
def bnot (a : Byte) : Byte := bxor a 255

/-- The forward S-box table (src/aes.c lines 82-99), verbatim. -/
def sbox : List Byte := [
  0x63, 0x7c, 0x77, 0x7b, 0xf2, 0x6b, 0x6f, 0xc5, 0x30, 0x01, 0x67, 0x2b, 0xfe, 0xd7, 0xab, 0x76,
  0xca, 0x82, 0xc9, 0x7d, 0xfa, 0x59, 0x47, 0xf0, 0xad, 0xd4, 0xa2, 0xaf, 0x9c, 0xa4, 0x72, 0xc0,
  0xb7, 0xfd, 0x93, 0x26, 0x36, 0x3f, 0xf7, 0xcc, 0x34, 0xa5, 0xe5, 0xf1, 0x71, 0xd8, 0x31, 0x15,
  0x04, 0xc7, 0x23, 0xc3, 0x18, 0x96, 0x05, 0x9a, 0x07, 0x12, 0x80, 0xe2, 0xeb, 0x27, 0xb2, 0x75,
  0x09, 0x83, 0x2c, 0x1a, 0x1b, 0x6e, 0x5a, 0xa0, 0x52, 0x3b, 0xd6, 0xb3, 0x29, 0xe3, 0x2f, 0x84,
  0x53, 0xd1, 0x00, 0xed, 0x20, 0xfc, 0xb1, 0x5b, 0x6a, 0xcb, 0xbe, 0x39, 0x4a, 0x4c, 0x58, 0xcf,
  0xd0, 0xef, 0xaa, 0xfb, 0x43, 0x4d, 0x33, 0x85, 0x45, 0xf9, 0x02, 0x7f, 0x50, 0x3c, 0x9f, 0xa8,
  0x51, 0xa3, 0x40, 0x8f, 0x92, 0x9d, 0x38, 0xf5, 0xbc, 0xb6, 0xda, 0x21, 0x10, 0xff, 0xf3, 0xd2,
  0xcd, 0x0c, 0x13, 0xec, 0x5f, 0x97, 0x44, 0x17, 0xc4, 0xa7, 0x7e, 0x3d, 0x64, 0x5d, 0x19, 0x73,
  0x60, 0x81, 0x4f, 0xdc, 0x22, 0x2a, 0x90, 0x88, 0x46, 0xee, 0xb8, 0x14, 0xde, 0x5e, 0x0b, 0xdb,
  0xe0, 0x32, 0x3a, 0x0a, 0x49, 0x06, 0x24, 0x5c, 0xc2, 0xd3, 0xac, 0x62, 0x91, 0x95, 0xe4, 0x79,
  0xe7, 0xc8, 0x37, 0x6d, 0x8d, 0xd5, 0x4e, 0xa9, 0x6c, 0x56, 0xf4, 0xea, 0x65, 0x7a, 0xae, 0x08,
  0xba, 0x78, 0x25, 0x2e, 0x1c, 0xa6, 0xb4, 0xc6, 0xe8, 0xdd, 0x74, 0x1f, 0x4b, 0xbd, 0x8b, 0x8a,
  0x70, 0x3e, 0xb5, 0x66, 0x48, 0x03, 0xf6, 0x0e, 0x61, 0x35, 0x57, 0xb9, 0x86, 0xc1, 0x1d, 0x9e,
  0xe1, 0xf8, 0x98, 0x11, 0x69, 0xd9, 0x8e, 0x94, 0x9b, 0x1e, 0x87, 0xe9, 0xce, 0x55, 0x28, 0xdf,
  0x8c, 0xa1, 0x89, 0x0d, 0xbf, 0xe6, 0x42, 0x68, 0x41, 0x99, 0x2d, 0x0f, 0xb0, 0x54, 0xbb, 0x16 ]

/-- The inverse S-box table (src/aes.c lines 101-117), verbatim. -/
def rsbox : List Byte := [
  0x52, 0x09, 0x6a, 0xd5, 0x30, 0x36, 0xa5, 0x38, 0xbf, 0x40, 0xa3, 0x9e, 0x81, 0xf3, 0xd7, 0xfb,
  0x7c, 0xe3, 0x39, 0x82, 0x9b, 0x2f, 0xff, 0x87, 0x34, 0x8e, 0x43, 0x44, 0xc4, 0xde, 0xe9, 0xcb,
  0x54, 0x7b, 0x94, 0x32, 0xa6, 0xc2, 0x23, 0x3d, 0xee, 0x4c, 0x95, 0x0b, 0x42, 0xfa, 0xc3, 0x4e,
  0x08, 0x2e, 0xa1, 0x66, 0x28, 0xd9, 0x24, 0xb2, 0x76, 0x5b, 0xa2, 0x49, 0x6d, 0x8b, 0xd1, 0x25,
  0x72, 0xf8, 0xf6, 0x64, 0x86, 0x68, 0x98, 0x16, 0xd4, 0xa4, 0x5c, 0xcc, 0x5d, 0x65, 0xb6, 0x92,
  0x6c, 0x70, 0x48, 0x50, 0xfd, 0xed, 0xb9, 0xda, 0x5e, 0x15, 0x46, 0x57, 0xa7, 0x8d, 0x9d, 0x84,
  0x90, 0xd8, 0xab, 0x00, 0x8c, 0xbc, 0xd3, 0x0a, 0xf7, 0xe4, 0x58, 0x05, 0xb8, 0xb3, 0x45, 0x06,
  0xd0, 0x2c, 0x1e, 0x8f, 0xca, 0x3f, 0x0f, 0x02, 0xc1, 0xaf, 0xbd, 0x03, 0x01, 0x13, 0x8a, 0x6b,
  0x3a, 0x91, 0x11, 0x41, 0x4f, 0x67, 0xdc, 0xea, 0x97, 0xf2, 0xcf, 0xce, 0xf0, 0xb4, 0xe6, 0x73,
  0x96, 0xac, 0x74, 0x22, 0xe7, 0xad, 0x35, 0x85, 0xe2, 0xf9, 0x37, 0xe8, 0x1c, 0x75, 0xdf, 0x6e,
  0x47, 0xf1, 0x1a, 0x71, 0x1d, 0x29, 0xc5, 0x89, 0x6f, 0xb7, 0x62, 0x0e, 0xaa, 0x18, 0xbe, 0x1b,
  0xfc, 0x56, 0x3e, 0x4b, 0xc6, 0xd2, 0x79, 0x20, 0x9a, 0xdb, 0xc0, 0xfe, 0x78, 0xcd, 0x5a, 0xf4,
  0x1f, 0xdd, 0xa8, 0x33, 0x88, 0x07, 0xc7, 0x31, 0xb1, 0x12, 0x10, 0x59, 0x27, 0x80, 0xec, 0x5f,
  0x60, 0x51, 0x7f, 0xa9, 0x19, 0xb5, 0x4a, 0x0d, 0x2d, 0xe5, 0x7a, 0x9f, 0x93, 0xc9, 0x9c, 0xef,
  0xa0, 0xe0, 0x3b, 0x4d, 0xae, 0x2a, 0xf5, 0xb0, 0xc8, 0xeb, 0xbb, 0x3c, 0x83, 0x53, 0x99, 0x61,
  0x17, 0x2b, 0x04, 0x7e, 0xba, 0x77, 0xd6, 0x26, 0xe1, 0x69, 0x14, 0x63, 0x55, 0x21, 0x0c, 0x7d ]

/-- The round-constant table (src/aes.c lines 123-139), verbatim; only
indices 1..10 are ever read by the key schedule. -/
def Rcon : List Byte := [
  0x8d, 0x01, 0x02, 0x04, 0x08, 0x10, 0x20, 0x40, 0x80, 0x1b, 0x36, 0x6c, 0xd8, 0xab, 0x4d, 0x9a,
  0x2f, 0x5e, 0xbc, 0x63, 0xc6, 0x97, 0x35, 0x6a, 0xd4, 0xb3, 0x7d, 0xfa, 0xef, 0xc5, 0x91, 0x39,
  0x72, 0xe4, 0xd3, 0xbd, 0x61, 0xc2, 0x9f, 0x25, 0x4a, 0x94, 0x33, 0x66, 0xcc, 0x83, 0x1d, 0x3a,
  0x74, 0xe8, 0xcb, 0x8d, 0x01, 0x02, 0x04, 0x08, 0x10, 0x20, 0x40, 0x80, 0x1b, 0x36, 0x6c, 0xd8,
  0xab, 0x4d, 0x9a, 0x2f, 0x5e, 0xbc, 0x63, 0xc6, 0x97, 0x35, 0x6a, 0xd4, 0xb3, 0x7d, 0xfa, 0xef,
  0xc5, 0x91, 0x39, 0x72, 0xe4, 0xd3, 0xbd, 0x61, 0xc2, 0x9f, 0x25, 0x4a, 0x94, 0x33, 0x66, 0xcc,
  0x83, 0x1d, 0x3a, 0x74, 0xe8, 0xcb, 0x8d, 0x01, 0x02, 0x04, 0x08, 0x10, 0x20, 0x40, 0x80, 0x1b,
  0x36, 0x6c, 0xd8, 0xab, 0x4d, 0x9a, 0x2f, 0x5e, 0xbc, 0x63, 0xc6, 0x97, 0x35, 0x6a, 0xd4, 0xb3,
  0x7d, 0xfa, 0xef, 0xc5, 0x91, 0x39, 0x72, 0xe4, 0xd3, 0xbd, 0x61, 0xc2, 0x9f, 0x25, 0x4a, 0x94,
  0x33, 0x66, 0xcc, 0x83, 0x1d, 0x3a, 0x74, 0xe8, 0xcb, 0x8d, 0x01, 0x02, 0x04, 0x08, 0x10, 0x20,
  0x40, 0x80, 0x1b, 0x36, 0x6c, 0xd8, 0xab, 0x4d, 0x9a, 0x2f, 0x5e, 0xbc, 0x63, 0xc6, 0x97, 0x35,
  0x6a, 0xd4, 0xb3, 0x7d, 0xfa, 0xef, 0xc5, 0x91, 0x39, 0x72, 0xe4, 0xd3, 0xbd, 0x61, 0xc2, 0x9f,
  0x25, 0x4a, 0x94, 0x33, 0x66, 0xcc, 0x83, 0x1d, 0x3a, 0x74, 0xe8, 0xcb, 0x8d, 0x01, 0x02, 0x04,
  0x08, 0x10, 0x20, 0x40, 0x80, 0x1b, 0x36, 0x6c, 0xd8, 0xab, 0x4d, 0x9a, 0x2f, 0x5e, 0xbc, 0x63,
  0xc6, 0x97, 0x35, 0x6a, 0xd4, 0xb3, 0x7d, 0xfa, 0xef, 0xc5, 0x91, 0x39, 0x72, 0xe4, 0xd3, 0xbd,
  0x61, 0xc2, 0x9f, 0x25, 0x4a, 0x94, 0x33, 0x66, 0xcc, 0x83, 0x1d, 0x3a, 0x74, 0xe8, 0xcb ]

/-- `sbox` packed little-endian into one natural: byte `i` sits at bits
`[8*i, 8*i+8)`.  Proven equal to the list entry-by-entry in `sbox_getD_eq`. -/
def sboxP : Nat := 0x16bb54b00f2d99416842e6bf0d89a18cdf2855cee9871e9b948ed9691198f8e19e1dc186b95735610ef6034866b53e708a8bbd4b1f74dde8c6b4a61c2e2578ba08ae7a65eaf4566ca94ed58d6d37c8e779e4959162acd3c25c2406490a3a32e0db0b5ede14b8ee4688902a22dc4f816073195d643d7ea7c41744975fec130ccdd2f3ff1021dab6bcf5389d928f40a351a89f3c507f02f94585334d43fbaaefd0cf584c4a39becb6a5bb1fc20ed00d153842fe329b3d63b52a05a6e1b1a2c830975b227ebe28012079a059618c323c7041531d871f1e5a534ccf73f362693fdb7c072a49cafa2d4adf04759fa7dc982ca76abd7fe2b670130c56f6bf27b777c63

/-- `rsbox` packed little-endian into one natural. -/
def rsboxP : Nat := 0x7d0c2155631469e126d677ba7e042b17619953833cbbebc8b0f52aae4d3be0a0ef9cc9939f7ae52d0d4ab519a97f51605fec8027591012b131c7078833a8dd1ff45acd78fec0db9a2079d2c64b3e56fc1bbe18aa0e62b76f89c5291d711af1476edf751ce837f9e28535ade72274ac9673e6b4f0cecff297eadc674f4111913a6b8a130103bdafc1020f3fca8f1e2cd00645b3b80558e4f70ad3bc8c00abd890849d8da75746155edab9edfd5048706c92b6655dcc5ca4d41698688664f6f87225d18b6d49a25b76b224d92866a12e084ec3fa420b954cee3d23c2a632947b54cbe9dec444438e3487ff2f9b8239e37cfbd7f3819ea340bf38a53630d56a0952

/-- `Rcon` packed little-endian into one natural. -/
def RconP : Nat := 0xcbe8743a1d83cc6633944a259fc261bdd3e4723991c5effa7db3d46a3597c663bc5e2f9a4dabd86c361b80402010080402018dcbe8743a1d83cc6633944a259fc261bdd3e4723991c5effa7db3d46a3597c663bc5e2f9a4dabd86c361b80402010080402018dcbe8743a1d83cc6633944a259fc261bdd3e4723991c5effa7db3d46a3597c663bc5e2f9a4dabd86c361b80402010080402018dcbe8743a1d83cc6633944a259fc261bdd3e4723991c5effa7db3d46a3597c663bc5e2f9a4dabd86c361b80402010080402018dcbe8743a1d83cc6633944a259fc261bdd3e4723991c5effa7db3d46a3597c663bc5e2f9a4dabd86c361b80402010080402018d

/-- Read byte `i` of a little-endian packed table. -/
def lookup (table : Nat) (i : Nat) : Nat := (table >>> (8 * i)) &&& 255

/-- One-pass check that a byte list agrees with a packed table starting at
entry `i`. -/
def tableMatches (P : Nat) : List Byte → Nat → Bool
  | [], _ => true
  | b :: rest, i => (b.val == lookup P i) && tableMatches P rest (i + 1)

/-- `getSBoxValue` (src/aes.c line 165): `return sbox[num];`. -/
def getSBoxValue (num : Byte) : Byte :=
  ⟨lookup sboxP num.val, Nat.lt_succ_of_le Nat.and_le_right⟩

/-- `getSBoxInvert` (src/aes.c line 555): `return rsbox[num];`. -/
def getSBoxInvert (num : Byte) : Byte :=
  ⟨lookup rsboxP num.val, Nat.lt_succ_of_le Nat.and_le_right⟩

/-- `Rcon[i]` as a natural. -/
def RconN (i : Nat) : Nat := lookup RconP i

/-- A masked byte: the `(value, mask)` pair of lanes the masked S-box circuit
carries in lockstep (`X` and `Xm` in the source). -/
abbrev MB := Byte × Byte

/-- The masked AND gadget `_SAND` (src/aes.c lines 146-160).  Returns the pair
the C code stores through `*zr` and `*zrm`. -/
def _SAND (p1 p2 q1 q2 : Byte) : Byte × Byte :=
  let r : Byte := 0xff
  let n1 := band p1 q1
  let n11 := band p2 q2
  let n2 := band p2 q1
  let n3 := band p1 q2
  let n4 := bxor r n1
  let m := bxor (bxor n2 n11) r
  let z := bxor n3 n4
  (z, m)

/-- XOR of masked pairs: one C line on the value lane plus the identically
shaped line on the mask lane. -/
def mxor (a b : MB) : MB := (bxor a.1 b.1, bxor a.2 b.2)

/-- AND of masked pairs: a `SAND(x, xm, y, ym, &z, &zm)` call in the source. -/
def mand (a b : MB) : MB := _SAND a.1 a.2 b.1 b.2

/-- Complement of a masked pair: the source complements the value lane only
and leaves the mask lane untouched. -/
def mnot (a : MB) : MB := (bnot a.1, a.2)

/-- The value a masked pair represents: `value XOR mask`. -/
def unmask (a : MB) : Byte := bxor a.1 a.2

/-! The same circuit on a single (unmasked) byte: plain XOR/AND/complement.
Used as the intermediate step relating the masked circuit to the table. -/

def U_0p (u : Byte) : Byte := bshr u 0
def U_1p (u : Byte) : Byte := bshr u 1
def U_2p (u : Byte) : Byte := bshr u 2
def U_3p (u : Byte) : Byte := bshr u 3
def U_4p (u : Byte) : Byte := bshr u 4
def U_5p (u : Byte) : Byte := bshr u 5
def U_6p (u : Byte) : Byte := bshr u 6
def U_7p (u : Byte) : Byte := bshr u 7
def T1p (u : Byte) : Byte := bxor (U_7p u) (U_4p u)
def T2p (u : Byte) : Byte := bxor (U_7p u) (U_2p u)
def T3p (u : Byte) : Byte := bxor (U_7p u) (U_1p u)
def T4p (u : Byte) : Byte := bxor (U_4p u) (U_2p u)
def T5p (u : Byte) : Byte := bxor (U_3p u) (U_1p u)
def T6p (u : Byte) : Byte := bxor (T1p u) (T5p u)
def T7p (u : Byte) : Byte := bxor (U_6p u) (U_5p u)
def T8p (u : Byte) : Byte := bxor (U_0p u) (T6p u)
def T9p (u : Byte) : Byte := bxor (U_0p u) (T7p u)
def T10p (u : Byte) : Byte := bxor (T6p u) (T7p u)
def T11p (u : Byte) : Byte := bxor (U_6p u) (U_2p u)
def T12p (u : Byte) : Byte := bxor (U_5p u) (U_2p u)
def T13p (u : Byte) : Byte := bxor (T3p u) (T4p u)
def T14p (u : Byte) : Byte := bxor (T6p u) (T11p u)
def T15p (u : Byte) : Byte := bxor (T5p u) (T11p u)
def T16p (u : Byte) : Byte := bxor (T5p u) (T12p u)
def T17p (u : Byte) : Byte := bxor (T9p u) (T16p u)
def T18p (u : Byte) : Byte := bxor (U_4p u) (U_0p u)
def T19p (u : Byte) : Byte := bxor (T7p u) (T18p u)
def T20p (u : Byte) : Byte := bxor (T1p u) (T19p u)
def T21p (u : Byte) : Byte := bxor (U_1p u) (U_0p u)
def T22p (u : Byte) : Byte := bxor (T7p u) (T21p u)
def T23p (u : Byte) : Byte := bxor (T2p u) (T22p u)
def T24p (u : Byte) : Byte := bxor (T2p u) (T10p u)
def T25p (u : Byte) : Byte := bxor (T20p u) (T17p u)
def T26p (u : Byte) : Byte := bxor (T3p u) (T16p u)
def T27p (u : Byte) : Byte := bxor (T1p u) (T12p u)
def M1p (u : Byte) : Byte := band (T13p u) (T6p u)
def M2p (u : Byte) : Byte := band (T23p u) (T8p u)
def M3p (u : Byte) : Byte := bxor (T14p u) (M1p u)
def M4p (u : Byte) : Byte := band (T19p u) (U_0p u)
def M5p (u : Byte) : Byte := bxor (M4p u) (M1p u)
def M6p (u : Byte) : Byte := band (T3p u) (T16p u)
def M7p (u : Byte) : Byte := band (T22p u) (T9p u)
def M8p (u : Byte) : Byte := bxor (T26p u) (M6p u)
def M9p (u : Byte) : Byte := band (T20p u) (T17p u)
def M10p (u : Byte) : Byte := bxor (M9p u) (M6p u)
def M11p (u : Byte) : Byte := band (T1p u) (T15p u)
def M12p (u : Byte) : Byte := band (T4p u) (T27p u)
def M13p (u : Byte) : Byte := bxor (M12p u) (M11p u)
def M14p (u : Byte) : Byte := band (T2p u) (T10p u)
def M15p (u : Byte) : Byte := bxor (M14p u) (M11p u)
def M16p (u : Byte) : Byte := bxor (M3p u) (M2p u)
def M17p (u : Byte) : Byte := bxor (M5p u) (T24p u)
def M18p (u : Byte) : Byte := bxor (M8p u) (M7p u)
def M19p (u : Byte) : Byte := bxor (M10p u) (M15p u)
def M20p (u : Byte) : Byte := bxor (M16p u) (M13p u)
def M21p (u : Byte) : Byte := bxor (M17p u) (M15p u)
def M22p (u : Byte) : Byte := bxor (M18p u) (M13p u)
def M23p (u : Byte) : Byte := bxor (M19p u) (T25p u)
def M24p (u : Byte) : Byte := bxor (M22p u) (M23p u)
def M25p (u : Byte) : Byte := band (M22p u) (M20p u)
def M26p (u : Byte) : Byte := bxor (M21p u) (M25p u)
def M27p (u : Byte) : Byte := bxor (M20p u) (M21p u)
def M28p (u : Byte) : Byte := bxor (M23p u) (M25p u)
def M29p (u : Byte) : Byte := band (M28p u) (M27p u)
def M30p (u : Byte) : Byte := band (M26p u) (M24p u)
def M31p (u : Byte) : Byte := band (M20p u) (M23p u)
def M32p (u : Byte) : Byte := band (M27p u) (M31p u)
def M33p (u : Byte) : Byte := bxor (M27p u) (M25p u)
def M34p (u : Byte) : Byte := band (M21p u) (M22p u)
def M35p (u : Byte) : Byte := band (M24p u) (M34p u)
def M36p (u : Byte) : Byte := bxor (M24p u) (M25p u)
def M37p (u : Byte) : Byte := bxor (M21p u) (M29p u)
def M38p (u : Byte) : Byte := bxor (M32p u) (M33p u)
def M39p (u : Byte) : Byte := bxor (M23p u) (M30p u)
def M40p (u : Byte) : Byte := bxor (M35p u) (M36p u)
def M41p (u : Byte) : Byte := bxor (M38p u) (M40p u)
def M42p (u : Byte) : Byte := bxor (M37p u) (M39p u)
def M43p (u : Byte) : Byte := bxor (M37p u) (M38p u)
def M44p (u : Byte) : Byte := bxor (M39p u) (M40p u)
def M45p (u : Byte) : Byte := bxor (M42p u) (M41p u)
def M46p (u : Byte) : Byte := band (M44p u) (T6p u)
def M47p (u : Byte) : Byte := band (M40p u) (T8p u)
def M48p (u : Byte) : Byte := band (M39p u) (U_0p u)
def M49p (u : Byte) : Byte := band (M43p u) (T16p u)
def M50p (u : Byte) : Byte := band (M38p u) (T9p u)
def M51p (u : Byte) : Byte := band (M37p u) (T17p u)
def M52p (u : Byte) : Byte := band (M42p u) (T15p u)
def M53p (u : Byte) : Byte := band (M45p u) (T27p u)
def M54p (u : Byte) : Byte := band (M41p u) (T10p u)
def M55p (u : Byte) : Byte := band (M44p u) (T13p u)
def M56p (u : Byte) : Byte := band (M40p u) (T23p u)
def M57p (u : Byte) : Byte := band (M39p u) (T19p u)
def M58p (u : Byte) : Byte := band (M43p u) (T3p u)
def M59p (u : Byte) : Byte := band (M38p u) (T22p u)
def M60p (u : Byte) : Byte := band (M37p u) (T20p u)
def M61p (u : Byte) : Byte := band (M42p u) (T1p u)
def M62p (u : Byte) : Byte := band (M45p u) (T4p u)
def M63p (u : Byte) : Byte := band (M41p u) (T2p u)
def L0p (u : Byte) : Byte := bxor (M61p u) (M62p u)
def L1p (u : Byte) : Byte := bxor (M50p u) (M56p u)
def L2p (u : Byte) : Byte := bxor (M46p u) (M48p u)
def L3p (u : Byte) : Byte := bxor (M47p u) (M55p u)
def L4p (u : Byte) : Byte := bxor (M54p u) (M58p u)
def L5p (u : Byte) : Byte := bxor (M49p u) (M61p u)
def L6p (u : Byte) : Byte := bxor (M62p u) (L5p u)
def L7p (u : Byte) : Byte := bxor (M46p u) (L3p u)
def L8p (u : Byte) : Byte := bxor (M51p u) (M59p u)
def L9p (u : Byte) : Byte := bxor (M52p u) (M53p u)
def L10p (u : Byte) : Byte := bxor (M53p u) (L4p u)
def L11p (u : Byte) : Byte := bxor (M60p u) (L2p u)
def L12p (u : Byte) : Byte := bxor (M48p u) (M51p u)
def L13p (u : Byte) : Byte := bxor (M50p u) (L0p u)
def L14p (u : Byte) : Byte := bxor (M52p u) (M61p u)
def L15p (u : Byte) : Byte := bxor (M55p u) (L1p u)
def L16p (u : Byte) : Byte := bxor (M56p u) (L0p u)
def L17p (u : Byte) : Byte := bxor (M57p u) (L1p u)
def L18p (u : Byte) : Byte := bxor (M58p u) (L8p u)
def L19p (u : Byte) : Byte := bxor (M63p u) (L4p u)
def L20p (u : Byte) : Byte := bxor (L0p u) (L1p u)
def L21p (u : Byte) : Byte := bxor (L1p u) (L7p u)
def L22p (u : Byte) : Byte := bxor (L3p u) (L12p u)
def L23p (u : Byte) : Byte := bxor (L18p u) (L2p u)
def L24p (u : Byte) : Byte := bxor (L15p u) (L9p u)
def L25p (u : Byte) : Byte := bxor (L6p u) (L10p u)
def L26p (u : Byte) : Byte := bxor (L7p u) (L9p u)
def L27p (u : Byte) : Byte := bxor (L8p u) (L10p u)
def L28p (u : Byte) : Byte := bxor (L11p u) (L14p u)
def L29p (u : Byte) : Byte := bxor (L11p u) (L17p u)
def W_7p (u : Byte) : Byte := bxor (L6p u) (L24p u)
def W_6p (u : Byte) : Byte := bnot (bxor (L16p u) (L26p u))
def W_5p (u : Byte) : Byte := bnot (bxor (L19p u) (L28p u))
def W_4p (u : Byte) : Byte := bxor (L6p u) (L21p u)
def W_3p (u : Byte) : Byte := bxor (L20p u) (L22p u)
def W_2p (u : Byte) : Byte := bxor (L25p u) (L29p u)
def W_1p (u : Byte) : Byte := bnot (bxor (L13p u) (L27p u))
def W_0p (u : Byte) : Byte := bnot (bxor (L6p u) (L23p u))

/-! Masked S-box circuit wires.  Each definition mirrors one value/mask pair of
assignments in `getSBoxValuem` (src/aes.c lines 249-529): the value line and
the identically-shaped mask line become one operation on masked pairs. -/

def U_0 (num numm : Byte) : MB := (bshr num 0, bshr numm 0)
def U_1 (num numm : Byte) : MB := (bshr num 1, bshr numm 1)
def U_2 (num numm : Byte) : MB := (bshr num 2, bshr numm 2)
def U_3 (num numm : Byte) : MB := (bshr num 3, bshr numm 3)
def U_4 (num numm : Byte) : MB := (bshr num 4, bshr numm 4)
def U_5 (num numm : Byte) : MB := (bshr num 5, bshr numm 5)
def U_6 (num numm : Byte) : MB := (bshr num 6, bshr numm 6)
def U_7 (num numm : Byte) : MB := (bshr num 7, bshr numm 7)
def T1 (num numm : Byte) : MB := mxor (U_7 num numm) (U_4 num numm)
def T2 (num numm : Byte) : MB := mxor (U_7 num numm) (U_2 num numm)
def T3 (num numm : Byte) : MB := mxor (U_7 num numm) (U_1 num numm)
def T4 (num numm : Byte) : MB := mxor (U_4 num numm) (U_2 num numm)
def T5 (num numm : Byte) : MB := mxor (U_3 num numm) (U_1 num numm)
def T6 (num numm : Byte) : MB := mxor (T1 num numm) (T5 num numm)
def T7 (num numm : Byte) : MB := mxor (U_6 num numm) (U_5 num numm)
def T8 (num numm : Byte) : MB := mxor (U_0 num numm) (T6 num numm)
def T9 (num numm : Byte) : MB := mxor (U_0 num numm) (T7 num numm)
def T10 (num numm : Byte) : MB := mxor (T6 num numm) (T7 num numm)
def T11 (num numm : Byte) : MB := mxor (U_6 num numm) (U_2 num numm)
def T12 (num numm : Byte) : MB := mxor (U_5 num numm) (U_2 num numm)
def T13 (num numm : Byte) : MB := mxor (T3 num numm) (T4 num numm)
def T14 (num numm : Byte) : MB := mxor (T6 num numm) (T11 num numm)
def T15 (num numm : Byte) : MB := mxor (T5 num numm) (T11 num numm)
def T16 (num numm : Byte) : MB := mxor (T5 num numm) (T12 num numm)
def T17 (num numm : Byte) : MB := mxor (T9 num numm) (T16 num numm)
def T18 (num numm : Byte) : MB := mxor (U_4 num numm) (U_0 num numm)
def T19 (num numm : Byte) : MB := mxor (T7 num numm) (T18 num numm)
def T20 (num numm : Byte) : MB := mxor (T1 num numm) (T19 num numm)
def T21 (num numm : Byte) : MB := mxor (U_1 num numm) (U_0 num numm)
def T22 (num numm : Byte) : MB := mxor (T7 num numm) (T21 num numm)
def T23 (num numm : Byte) : MB := mxor (T2 num numm) (T22 num numm)
def T24 (num numm : Byte) : MB := mxor (T2 num numm) (T10 num numm)
def T25 (num numm : Byte) : MB := mxor (T20 num numm) (T17 num numm)
def T26 (num numm : Byte) : MB := mxor (T3 num numm) (T16 num numm)
def T27 (num numm : Byte) : MB := mxor (T1 num numm) (T12 num numm)
def M1 (num numm : Byte) : MB := mand (T13 num numm) (T6 num numm)
def M2 (num numm : Byte) : MB := mand (T23 num numm) (T8 num numm)
def M3 (num numm : Byte) : MB := mxor (T14 num numm) (M1 num numm)
def M4 (num numm : Byte) : MB := mand (T19 num numm) (U_0 num numm)
def M5 (num numm : Byte) : MB := mxor (M4 num numm) (M1 num numm)
def M6 (num numm : Byte) : MB := mand (T3 num numm) (T16 num numm)
def M7 (num numm : Byte) : MB := mand (T22 num numm) (T9 num numm)
def M8 (num numm : Byte) : MB := mxor (T26 num numm) (M6 num numm)
def M9 (num numm : Byte) : MB := mand (T20 num numm) (T17 num numm)
def M10 (num numm : Byte) : MB := mxor (M9 num numm) (M6 num numm)
def M11 (num numm : Byte) : MB := mand (T1 num numm) (T15 num numm)
def M12 (num numm : Byte) : MB := mand (T4 num numm) (T27 num numm)
def M13 (num numm : Byte) : MB := mxor (M12 num numm) (M11 num numm)
def M14 (num numm : Byte) : MB := mand (T2 num numm) (T10 num numm)
def M15 (num numm : Byte) : MB := mxor (M14 num numm) (M11 num numm)
def M16 (num numm : Byte) : MB := mxor (M3 num numm) (M2 num numm)
def M17 (num numm : Byte) : MB := mxor (M5 num numm) (T24 num numm)
def M18 (num numm : Byte) : MB := mxor (M8 num numm) (M7 num numm)
def M19 (num numm : Byte) : MB := mxor (M10 num numm) (M15 num numm)
def M20 (num numm : Byte) : MB := mxor (M16 num numm) (M13 num numm)
def M21 (num numm : Byte) : MB := mxor (M17 num numm) (M15 num numm)
def M22 (num numm : Byte) : MB := mxor (M18 num numm) (M13 num numm)
def M23 (num numm : Byte) : MB := mxor (M19 num numm) (T25 num numm)
def M24 (num numm : Byte) : MB := mxor (M22 num numm) (M23 num numm)
def M25 (num numm : Byte) : MB := mand (M22 num numm) (M20 num numm)
def M26 (num numm : Byte) : MB := mxor (M21 num numm) (M25 num numm)
def M27 (num numm : Byte) : MB := mxor (M20 num numm) (M21 num numm)
def M28 (num numm : Byte) : MB := mxor (M23 num numm) (M25 num numm)
def M29 (num numm : Byte) : MB := mand (M28 num numm) (M27 num numm)
def M30 (num numm : Byte) : MB := mand (M26 num numm) (M24 num numm)
def M31 (num numm : Byte) : MB := mand (M20 num numm) (M23 num numm)
def M32 (num numm : Byte) : MB := mand (M27 num numm) (M31 num numm)
def M33 (num numm : Byte) : MB := mxor (M27 num numm) (M25 num numm)
def M34 (num numm : Byte) : MB := mand (M21 num numm) (M22 num numm)
def M35 (num numm : Byte) : MB := mand (M24 num numm) (M34 num numm)
def M36 (num numm : Byte) : MB := mxor (M24 num numm) (M25 num numm)
def M37 (num numm : Byte) : MB := mxor (M21 num numm) (M29 num numm)
def M38 (num numm : Byte) : MB := mxor (M32 num numm) (M33 num numm)
def M39 (num numm : Byte) : MB := mxor (M23 num numm) (M30 num numm)
def M40 (num numm : Byte) : MB := mxor (M35 num numm) (M36 num numm)
def M41 (num numm : Byte) : MB := mxor (M38 num numm) (M40 num numm)
def M42 (num numm : Byte) : MB := mxor (M37 num numm) (M39 num numm)
def M43 (num numm : Byte) : MB := mxor (M37 num numm) (M38 num numm)
def M44 (num numm : Byte) : MB := mxor (M39 num numm) (M40 num numm)
def M45 (num numm : Byte) : MB := mxor (M42 num numm) (M41 num numm)
def M46 (num numm : Byte) : MB := mand (M44 num numm) (T6 num numm)
def M47 (num numm : Byte) : MB := mand (M40 num numm) (T8 num numm)
def M48 (num numm : Byte) : MB := mand (M39 num numm) (U_0 num numm)
def M49 (num numm : Byte) : MB := mand (M43 num numm) (T16 num numm)
def M50 (num numm : Byte) : MB := mand (M38 num numm) (T9 num numm)
def M51 (num numm : Byte) : MB := mand (M37 num numm) (T17 num numm)
def M52 (num numm : Byte) : MB := mand (M42 num numm) (T15 num numm)
def M53 (num numm : Byte) : MB := mand (M45 num numm) (T27 num numm)
def M54 (num numm : Byte) : MB := mand (M41 num numm) (T10 num numm)
def M55 (num numm : Byte) : MB := mand (M44 num numm) (T13 num numm)
def M56 (num numm : Byte) : MB := mand (M40 num numm) (T23 num numm)
def M57 (num numm : Byte) : MB := mand (M39 num numm) (T19 num numm)
def M58 (num numm : Byte) : MB := mand (M43 num numm) (T3 num numm)
def M59 (num numm : Byte) : MB := mand (M38 num numm) (T22 num numm)
def M60 (num numm : Byte) : MB := mand (M37 num numm) (T20 num numm)
def M61 (num numm : Byte) : MB := mand (M42 num numm) (T1 num numm)
def M62 (num numm : Byte) : MB := mand (M45 num numm) (T4 num numm)
def M63 (num numm : Byte) : MB := mand (M41 num numm) (T2 num numm)
def L0 (num numm : Byte) : MB := mxor (M61 num numm) (M62 num numm)
def L1 (num numm : Byte) : MB := mxor (M50 num numm) (M56 num numm)
def L2 (num numm : Byte) : MB := mxor (M46 num numm) (M48 num numm)
def L3 (num numm : Byte) : MB := mxor (M47 num numm) (M55 num numm)
def L4 (num numm : Byte) : MB := mxor (M54 num numm) (M58 num numm)
def L5 (num numm : Byte) : MB := mxor (M49 num numm) (M61 num numm)
def L6 (num numm : Byte) : MB := mxor (M62 num numm) (L5 num numm)
def L7 (num numm : Byte) : MB := mxor (M46 num numm) (L3 num numm)
def L8 (num numm : Byte) : MB := mxor (M51 num numm) (M59 num numm)
def L9 (num numm : Byte) : MB := mxor (M52 num numm) (M53 num numm)
def L10 (num numm : Byte) : MB := mxor (M53 num numm) (L4 num numm)
def L11 (num numm : Byte) : MB := mxor (M60 num numm) (L2 num numm)
def L12 (num numm : Byte) : MB := mxor (M48 num numm) (M51 num numm)
def L13 (num numm : Byte) : MB := mxor (M50 num numm) (L0 num numm)
def L14 (num numm : Byte) : MB := mxor (M52 num numm) (M61 num numm)
def L15 (num numm : Byte) : MB := mxor (M55 num numm) (L1 num numm)
def L16 (num numm : Byte) : MB := mxor (M56 num numm) (L0 num numm)
def L17 (num numm : Byte) : MB := mxor (M57 num numm) (L1 num numm)
def L18 (num numm : Byte) : MB := mxor (M58 num numm) (L8 num numm)
def L19 (num numm : Byte) : MB := mxor (M63 num numm) (L4 num numm)
def L20 (num numm : Byte) : MB := mxor (L0 num numm) (L1 num numm)
def L21 (num numm : Byte) : MB := mxor (L1 num numm) (L7 num numm)
def L22 (num numm : Byte) : MB := mxor (L3 num numm) (L12 num numm)
def L23 (num numm : Byte) : MB := mxor (L18 num numm) (L2 num numm)
def L24 (num numm : Byte) : MB := mxor (L15 num numm) (L9 num numm)
def L25 (num numm : Byte) : MB := mxor (L6 num numm) (L10 num numm)
def L26 (num numm : Byte) : MB := mxor (L7 num numm) (L9 num numm)
def L27 (num numm : Byte) : MB := mxor (L8 num numm) (L10 num numm)
def L28 (num numm : Byte) : MB := mxor (L11 num numm) (L14 num numm)
def L29 (num numm : Byte) : MB := mxor (L11 num numm) (L17 num numm)

/-- The 30 bottom-linear-layer signals as one indexed family (value, mask). -/
def Lwires (num numm : Byte) (k : Nat) : MB :=
  match k with
  | 0 => L0 num numm
  | 1 => L1 num numm
  | 2 => L2 num numm
  | 3 => L3 num numm
  | 4 => L4 num numm
  | 5 => L5 num numm
  | 6 => L6 num numm
  | 7 => L7 num numm
  | 8 => L8 num numm
  | 9 => L9 num numm
  | 10 => L10 num numm
  | 11 => L11 num numm
  | 12 => L12 num numm
  | 13 => L13 num numm
  | 14 => L14 num numm
  | 15 => L15 num numm
  | 16 => L16 num numm
  | 17 => L17 num numm
  | 18 => L18 num numm
  | 19 => L19 num numm
  | 20 => L20 num numm
  | 21 => L21 num numm
  | 22 => L22 num numm
  | 23 => L23 num numm
  | 24 => L24 num numm
  | 25 => L25 num numm
  | 26 => L26 num numm
  | 27 => L27 num numm
  | 28 => L28 num numm
  | 29 => L29 num numm
  | _ => (0, 0)

/-- Stage 5 of `getSBoxValuem` (src/aes.c lines 510-529): the eight output
lanes as XOR combinations of L-signals; `mnot` complements the value lane
only, leaving the mask lane untouched, exactly as in the source. -/
def outputLane (L : Nat → MB) (i : Nat) : MB :=
  match i with
  | 0 => mnot (mxor (L 6) (L 23))
  | 1 => mnot (mxor (L 13) (L 27))
  | 2 => mxor (L 25) (L 29)
  | 3 => mxor (L 20) (L 22)
  | 4 => mxor (L 6) (L 21)
  | 5 => mnot (mxor (L 19) (L 28))
  | 6 => mnot (mxor (L 16) (L 26))
  | 7 => mxor (L 6) (L 24)
  | _ => (0, 0)

def W_7 (num numm : Byte) : MB := outputLane (Lwires num numm) 7
def W_6 (num numm : Byte) : MB := outputLane (Lwires num numm) 6
def W_5 (num numm : Byte) : MB := outputLane (Lwires num numm) 5
def W_4 (num numm : Byte) : MB := outputLane (Lwires num numm) 4
def W_3 (num numm : Byte) : MB := outputLane (Lwires num numm) 3
def W_2 (num numm : Byte) : MB := outputLane (Lwires num numm) 2
def W_1 (num numm : Byte) : MB := outputLane (Lwires num numm) 1
def W_0 (num numm : Byte) : MB := outputLane (Lwires num numm) 0

/-- Stage 6 of `getSBoxValuem` (src/aes.c lines 530-549): assemble a byte from
bit 0 of lanes 0..6 and lane 7 shifted into the top position; the cast to
`uint8_t` is the explicit `% 256`. -/
def packLanes (x0 x1 x2 x3 x4 x5 x6 x7 : Byte) : Byte :=
  ⟨(((x0.val &&& 0x01) <<< 0) |||
    ((x1.val &&& 0x01) <<< 1) |||
    ((x2.val &&& 0x01) <<< 2) |||
    ((x3.val &&& 0x01) <<< 3) |||
    ((x4.val &&& 0x01) <<< 4) |||
    ((x5.val &&& 0x01) <<< 5) |||
    ((x6.val &&& 0x01) <<< 6) |||
    (x7.val <<< 7)) % 256, Nat.mod_lt _ (by decide)⟩

/-- `getSBoxValuem` (src/aes.c lines 169-553): the masked S-box circuit.  The
first component is the returned byte `t`; the second is the mask byte `tm`
the C code writes back through `*numm`. -/
def getSBoxValuem (num numm : Byte) : Byte × Byte :=
  (packLanes (W_0 num numm).1 (W_1 num numm).1 (W_2 num numm).1 (W_3 num numm).1
             (W_4 num numm).1 (W_5 num numm).1 (W_6 num numm).1 (W_7 num numm).1,
   packLanes (W_0 num numm).2 (W_1 num numm).2 (W_2 num numm).2 (W_3 num numm).2
             (W_4 num numm).2 (W_5 num numm).2 (W_6 num numm).2 (W_7 num numm).2)

/-- The same circuit on one unmasked byte (a proof device: the masked circuit
is shown to compute this, and this is checked against the table). -/
def sboxCircuit (u : Byte) : Byte :=
  packLanes (W_0p u) (W_1p u) (W_2p u) (W_3p u) (W_4p u) (W_5p u) (W_6p u) (W_7p u)

/-! ## State, buffers, round transforms -/

/-- `state_t`: the 4×4 byte matrix. -/
abbrev state_t := Fin 4 → Fin 4 → Byte

/-- A 16-byte buffer. -/
abbrev buf16 := Fin 16 → Byte

/-- The C cast of a 16-byte buffer to `state_t*`: `state[i][j] = buf[4*i+j]`. -/
def toState (buf : buf16) : state_t :=
  fun i j => buf ⟨4 * i.val + j.val, by have := i.isLt; have := j.isLt; omega⟩

/-- Read a `state_t` back as a 16-byte buffer. -/
def ofState (s : state_t) : buf16 :=
  fun k => s ⟨k.val / 4, by have := k.isLt; omega⟩ ⟨k.val % 4, by omega⟩

/-- Componentwise XOR of two states (mask injection/removal, IV chaining). -/
def xorState (s m : state_t) : state_t := fun i j => bxor (s i j) (m i j)

/-- Byte `round*16 + 4*i + j` of the packed 176-byte round-key store. -/
def rkByte (rk : Nat) (k : Nat) : Nat := (rk >>> (8 * k)) &&& 255

/-- `AddRoundKey` (src/aes.c lines 628-638):
`state[i][j] ^= RoundKey[round*Nb*4 + i*Nb + j]`. -/
def AddRoundKey (rk : Nat) (round : Nat) (s : state_t) : state_t :=
  fun i j =>
    bxor (s i j) ⟨rkByte rk (round * 16 + i.val * 4 + j.val), Nat.lt_succ_of_le Nat.and_le_right⟩

/-- `SubBytes` (src/aes.c lines 654-664): plain table substitution on every
entry (the source's unmasked variant, unused by the forward `Cipher`). -/
def SubBytes (s : state_t) : state_t := fun i j => getSBoxValue (s i j)

/-- `SubBytesm` (src/aes.c lines 642-652): masked substitution; every state
byte is replaced by `t` and every mask byte by the written-back `tm`. -/
def SubBytesm (s m : state_t) : state_t × state_t :=
  (fun i j => (getSBoxValuem (s i j) (m i j)).1,
   fun i j => (getSBoxValuem (s i j) (m i j)).2)

/-- `InvSubBytes` (src/aes.c lines 762-772). -/
def InvSubBytes (s : state_t) : state_t := fun i j => getSBoxInvert (s i j)

/-- `ShiftRows` (src/aes.c lines 669-695).  The swap sequence rotates column
`j` of the matrix up by `j` positions: net effect `new[i][j] = old[i+j][j]`
(index arithmetic mod 4). -/
def ShiftRows (s : state_t) : state_t := fun i j => s (i + j) j

/-- `InvShiftRows` (src/aes.c lines 774-800): net effect
`new[i][j] = old[i-j][j]` (mod 4). -/
def InvShiftRows (s : state_t) : state_t := fun i j => s (i - j) j

/-- `xtime` (src/aes.c lines 697-700), truncated to a byte by the return
type: `(x<<1) ^ (((x>>7) & 1) * 0x1b)`. -/
def xtime (x : Byte) : Byte :=
  ⟨((x.val <<< 1) ^^^ (((x.val >>> 7) &&& 1) * 0x1b)) % 256, Nat.mod_lt _ (by decide)⟩

/-- One entry of the `MixColumns` row transform (src/aes.c lines 703-716);
the loop body reads the original row values `a b c d` and updates entry `j`
to `old ^ xtime(old ^ next) ^ (a^b^c^d)`. -/
def mixCol (a b c d : Byte) (j : Nat) : Byte :=
  let Tmp := bxor (bxor (bxor a b) c) d
  match j with
  | 0 => bxor a (bxor (xtime (bxor a b)) Tmp)
  | 1 => bxor b (bxor (xtime (bxor b c)) Tmp)
  | 2 => bxor c (bxor (xtime (bxor c d)) Tmp)
  | _ => bxor d (bxor (xtime (bxor d a)) Tmp)

/-- `MixColumns` (src/aes.c lines 703-716). -/
def MixColumns (s : state_t) : state_t :=
  fun i j => mixCol (s i 0) (s i 1) (s i 2) (s i 3) j.val

/-- The `Multiply` macro (src/aes.c lines 729-734): GF(2⁸) product via the
low five bits of `y`, truncated to a byte on assignment. -/
def Multiply (x y : Byte) : Byte :=
  ⟨(((y.val &&& 1) * x.val) ^^^
    (((y.val >>> 1) &&& 1) * (xtime x).val) ^^^
    (((y.val >>> 2) &&& 1) * (xtime (xtime x)).val) ^^^
    (((y.val >>> 3) &&& 1) * (xtime (xtime (xtime x))).val) ^^^
    (((y.val >>> 4) &&& 1) * (xtime (xtime (xtime (xtime x)))).val)) % 256,
   Nat.mod_lt _ (by decide)⟩

/-- One entry of the `InvMixColumns` row transform (src/aes.c lines 741-757). -/
def invMixCol (a b c d : Byte) (j : Nat) : Byte :=
  match j with
  | 0 => bxor (bxor (bxor (Multiply a 0x0e) (Multiply b 0x0b)) (Multiply c 0x0d)) (Multiply d 0x09)
  | 1 => bxor (bxor (bxor (Multiply a 0x09) (Multiply b 0x0e)) (Multiply c 0x0b)) (Multiply d 0x0d)
  | 2 => bxor (bxor (bxor (Multiply a 0x0d) (Multiply b 0x09)) (Multiply c 0x0e)) (Multiply d 0x0b)
  | _ => bxor (bxor (bxor (Multiply a 0x0b) (Multiply b 0x0d)) (Multiply c 0x09)) (Multiply d 0x0e)

/-- `InvMixColumns` (src/aes.c lines 741-757). -/
def InvMixColumns (s : state_t) : state_t :=
  fun i j => invMixCol (s i 0) (s i 1) (s i 2) (s i 3) j.val

/-! ## Key schedule

The 176-byte `RoundKey` store is packed little-endian into one natural (byte
`k` at bits `[8*k, 8*k+8)`), read back with `rkByte`. -/

/-- Byte of the packed forward S-box, for `uint8_t` inputs. -/
def sboxN (n : Nat) : Nat := lookup sboxP n

/-- The word computed by one iteration `i ∈ [4, 44)` of the `KeyExpansion`
loop (src/aes.c lines 576-623): `tempa` is the previous word, rotated,
substituted and Rcon-adjusted when `i % Nk == 0` (the `Nk > 6` branch of the
source is dead code for AES-128), then XORed with the word four back. -/
def keyExpandWord (rk : Nat) (i : Nat) : Nat :=
  let t0 := rkByte rk ((i - 1) * 4)
  let t1 := rkByte rk ((i - 1) * 4 + 1)
  let t2 := rkByte rk ((i - 1) * 4 + 2)
  let t3 := rkByte rk ((i - 1) * 4 + 3)
  let u0 := if i % 4 == 0 then sboxN t1 ^^^ RconN (i / 4) else t0
  let u1 := if i % 4 == 0 then sboxN t2 else t1
  let u2 := if i % 4 == 0 then sboxN t3 else t2
  let u3 := if i % 4 == 0 then sboxN t0 else t3
  (rkByte rk ((i - 4) * 4) ^^^ u0) |||
    ((rkByte rk ((i - 4) * 4 + 1) ^^^ u1) <<< 8) |||
    ((rkByte rk ((i - 4) * 4 + 2) ^^^ u2) <<< 16) |||
    ((rkByte rk ((i - 4) * 4 + 3) ^^^ u3) <<< 24)

/-- Run the expansion loop for the first `n` of the 40 iterations. -/
def keyExpandFrom (k0 : Nat) : Nat → Nat
  | 0 => k0
  | n + 1 =>
    let rk := keyExpandFrom k0 n
    rk ||| (keyExpandWord rk (4 + n) <<< (32 * (4 + n)))

/-- The first `KeyExpansion` loop: `RoundKey[i] = Key[i]` for `i < 16`. -/
def packBuf16 (key : buf16) : Nat :=
  (key 0).val |||
    ((key 1).val <<< 8) ||| ((key 2).val <<< 16) ||| ((key 3).val <<< 24) |||
    ((key 4).val <<< 32) ||| ((key 5).val <<< 40) ||| ((key 6).val <<< 48) |||
    ((key 7).val <<< 56) ||| ((key 8).val <<< 64) ||| ((key 9).val <<< 72) |||
    ((key 10).val <<< 80) ||| ((key 11).val <<< 88) ||| ((key 12).val <<< 96) |||
    ((key 13).val <<< 104) ||| ((key 14).val <<< 112) ||| ((key 15).val <<< 120)

/-- `KeyExpansion` (src/aes.c lines 561-624): the full 176-byte round-key
store, packed. -/
def KeyExpansion (key : buf16) : Nat := keyExpandFrom (packBuf16 key) 40

/-! ## Cipher -/

/-- The hard-coded 16-byte mask seed `rng[]` (src/aes.c line 807). -/
def rngByte (k : Nat) : Byte :=
  match k with
  | 0 => 0x13 | 1 => 0x05 | 2 => 0x59 | 3 => 0x81
  | 4 => 0x49 | 5 => 0xaf | 6 => 0xb3 | 7 => 0x30
  | 8 => 0x29 | 9 => 0x11 | 10 => 0xc4 | 11 => 0xbb
  | 12 => 0x91 | 13 => 0xe4 | 14 => 0x98 | 15 => 0x44
  | _ => 0

/-- The seed array viewed as `state_t` (the C cast `(state_t*)rng`). -/
def Rng : state_t := fun i j => rngByte (4 * i.val + j.val)

/-- One iteration of the round loop in `Cipher` (src/aes.c lines 829-841):
masked SubBytes, ShiftRows and MixColumns on both lanes, AddRoundKey on the
value lane only. -/
def cipherRound (rk : Nat) (r : Nat) (sm : state_t × state_t) : state_t × state_t :=
  let sb := SubBytesm sm.1 sm.2
  let s := MixColumns (ShiftRows sb.1)
  let m := MixColumns (ShiftRows sb.2)
  (AddRoundKey rk r s, m)

/-- Rounds `1..n` of the `Cipher` loop, in increasing order. -/
def cipherRounds (rk : Nat) : Nat → state_t × state_t → state_t × state_t
  | 0, sm => sm
  | n + 1, sm => cipherRound rk (n + 1) (cipherRounds rk n sm)

/-- `Cipher` (src/aes.c lines 804-862) with the mask seed as a parameter:
inject the mask, AddRoundKey 0, nine full rounds, the final round without
MixColumns, then remove the mask.  `Cipher` itself fixes the seed to `Rng`. -/
def CipherWithSeed (rk : Nat) (seed : state_t) (s : state_t) : state_t :=
  let s0 := AddRoundKey rk 0 (xorState s seed)
  let sm := cipherRounds rk 9 (s0, seed)
  let sb := SubBytesm sm.1 sm.2
  let sfin := AddRoundKey rk 10 (ShiftRows sb.1)
  xorState sfin (ShiftRows sb.2)

/-- `Cipher` (src/aes.c lines 804-862): the seed is the hard-coded `rng`. -/
def Cipher (rk : Nat) (s : state_t) : state_t := CipherWithSeed rk Rng s

/-- Materialise a state (proof device used by the reference cipher so that
concrete evaluation shares the sixteen entries). -/
structure S16 where
  b00 : Byte
  b01 : Byte
  b02 : Byte
  b03 : Byte
  b10 : Byte
  b11 : Byte
  b12 : Byte
  b13 : Byte
  b20 : Byte
  b21 : Byte
  b22 : Byte
  b23 : Byte
  b30 : Byte
  b31 : Byte
  b32 : Byte
  b33 : Byte

/-- Entry `(i, j)` of a materialised state. -/
def S16.entry (t : S16) (i j : Fin 4) : Byte :=
  match i.val, j.val with
  | 0, 0 => t.b00 | 0, 1 => t.b01 | 0, 2 => t.b02 | 0, 3 => t.b03
  | 1, 0 => t.b10 | 1, 1 => t.b11 | 1, 2 => t.b12 | 1, 3 => t.b13
  | 2, 0 => t.b20 | 2, 1 => t.b21 | 2, 2 => t.b22 | 2, 3 => t.b23
  | 3, 0 => t.b30 | 3, 1 => t.b31 | 3, 2 => t.b32 | _, _ => t.b33

/-- Materialise. -/
def pack16 (s : state_t) : S16 :=
  ⟨s 0 0, s 0 1, s 0 2, s 0 3, s 1 0, s 1 1, s 1 2, s 1 3,
   s 2 0, s 2 1, s 2 2, s 2 3, s 3 0, s 3 1, s 3 2, s 3 3⟩

/-- Semantically the identity on states (proved in `norm16_eq`). -/
def norm16 (s : state_t) : state_t := fun i j => (pack16 s).entry i j

/-- One full round of the unmasked reference cipher (proof device). -/
def refRound (rk : Nat) (r : Nat) (s : state_t) : state_t :=
  norm16 (AddRoundKey rk r (MixColumns (ShiftRows (SubBytes s))))

/-- Rounds `1..n` of the unmasked reference cipher. -/
def refRounds (rk : Nat) : Nat → state_t → state_t
  | 0, s => s
  | n + 1, s => refRound rk (n + 1) (refRounds rk n s)

/-- Unmasked reference cipher (proof device): the masked `Cipher` is proved
equal to it for every seed, and concrete evaluations run through it. -/
def CipherRef (rk : Nat) (s : state_t) : state_t :=
  AddRoundKey rk 10 (ShiftRows (SubBytes (refRounds rk 9 (norm16 (AddRoundKey rk 0 s)))))

/-- One iteration of the `InvCipher` round loop (src/aes.c lines 874-881). -/
def invRound (rk : Nat) (r : Nat) (s : state_t) : state_t :=
  norm16 (InvMixColumns (AddRoundKey rk r (InvSubBytes (InvShiftRows s))))

/-- The `InvCipher` loop for rounds `n..1` (decreasing, as in the source). -/
def invRounds (rk : Nat) : Nat → state_t → state_t
  | 0, s => s
  | n + 1, s => invRounds rk n (invRound rk (n + 1) s)

/-- `InvCipher` (src/aes.c lines 864-887): AddRoundKey 10, nine inverse
rounds, then InvShiftRows, InvSubBytes, AddRoundKey 0. -/
def InvCipher (rk : Nat) (s : state_t) : state_t :=
  AddRoundKey rk 0 (InvSubBytes (InvShiftRows (invRounds rk 9 (AddRoundKey rk 10 s))))

/-! ## ECB driver -/

/-- `AES128_ECB_encrypt` (src/aes.c lines 906-916): copy input to output,
expand the key, run `Cipher` in place on the output buffer. -/
def AES128_ECB_encrypt (input key : buf16) : buf16 :=
  ofState (Cipher (KeyExpansion key) (toState input))

/-- `AES128_ECB_decrypt` (src/aes.c lines 918-928). -/
def AES128_ECB_decrypt (input key : buf16) : buf16 :=
  ofState (InvCipher (KeyExpansion key) (toState input))

/-- The memory a call to the ECB entry points can touch: the caller's input,
key and output buffers plus the process-wide round-key store. -/
structure ECBMem where
  inBuf : buf16
  keyBuf : buf16
  outBuf : buf16
  roundKeyStore : Nat

/-- `AES128_ECB_encrypt` as a transformer on that memory: `BlockCopy` and
`Cipher` write `outBuf` only, `KeyExpansion` writes the round-key store only;
no statement of the source writes through `input` or `key`. -/
def ecbEncryptMem (m : ECBMem) : ECBMem :=
  { m with
    outBuf := ofState (Cipher (KeyExpansion m.keyBuf) (toState m.inBuf))
    roundKeyStore := KeyExpansion m.keyBuf }

/-- `AES128_ECB_decrypt` as a transformer on that memory. -/
def ecbDecryptMem (m : ECBMem) : ECBMem :=
  { m with
    outBuf := ofState (InvCipher (KeyExpansion m.keyBuf) (toState m.inBuf))
    roundKeyStore := KeyExpansion m.keyBuf }

/-! ## CBC driver

Buffers of arbitrary length are functions `Nat → Byte` together with the
`length` argument; the C pointer arithmetic `input += KEYLEN` becomes a shift
of the function.  The encrypt loop `for (i = 0; i < length; i += KEYLEN)`
executes `⌈length/16⌉` times, and when `16 ∤ length` the remainder path then
reads the 16 bytes after those — the model keeps both behaviours exactly. -/

/-- The 16 bytes at the front of a buffer, as the C `state_t` cast. -/
def blockAt (inp : Nat → Byte) : state_t := fun i j => inp (4 * i.val + j.val)

/-- `input += KEYLEN`. -/
def advance16 (inp : Nat → Byte) : Nat → Byte := fun k => inp (k + 16)

/-- `input += KEYLEN` taken `n` times. -/
def advanceN (inp : Nat → Byte) (n : Nat) : Nat → Byte := fun k => inp (k + 16 * n)

/-- The remainder path's block: `BlockCopy` then `memset(output+remainders,
0, KEYLEN-remainders)` — the first `rem` bytes of the buffer, zero-filled. -/
def zeroTail (inp : Nat → Byte) (rem : Nat) : state_t :=
  fun i j => if 4 * i.val + j.val < rem then inp (4 * i.val + j.val) else 0

/-- The state `(i, j) ↦ 0`. -/
def zeroState : state_t := fun _ _ => 0

/-- The encrypt loop (src/aes.c lines 969-978), one entry per iteration:
`XorWithIv(input)` (mutating the caller's input block in place), copy to
output, `Cipher` in place, `Iv = output`.  Each list entry is the pair
`(ciphertext block written to output, xored block left in the input buffer)`. -/
def cbcEncLoop (rk : Nat) : Nat → state_t → (Nat → Byte) → List (state_t × state_t)
  | 0, _, _ => []
  | n + 1, iv, inp =>
    let x := xorState (blockAt inp) iv
    let c := Cipher rk x
    (c, x) :: cbcEncLoop rk n c (advance16 inp)

/-- `AES128_CBC_encrypt_buffer` (src/aes.c lines 949-987) with key and IV
supplied (the non-null case).  First component: the 16-byte output blocks
written (loop blocks, then the remainder block when `16 ∤ length`).  Second
component: the input-buffer blocks as the call leaves them (the loop XORs
each with its chaining IV in place). -/
def AES128_CBC_encrypt_buffer (key iv : buf16) (inp : Nat → Byte) (length : Nat) :
    List state_t × List state_t :=
  let rk := KeyExpansion key
  let cnt := (length + 15) / 16
  let blocks := cbcEncLoop rk cnt (toState iv) inp
  let rem := length % 16
  (blocks.map Prod.fst ++
     (if rem == 0 then [] else [Cipher rk (zeroTail (advanceN inp cnt) rem)]),
   blocks.map Prod.snd)

/-- The decrypt loop (src/aes.c lines 1010-1019): copy input block to output,
`InvCipher` in place, `XorWithIv(output)`, `Iv = input`. -/
def cbcDecLoop (rk : Nat) : Nat → state_t → (Nat → Byte) → List state_t
  | 0, _, _ => []
  | n + 1, iv, inp =>
    let blk := blockAt inp
    xorState (InvCipher rk blk) iv :: cbcDecLoop rk n blk (advance16 inp)

/-- `AES128_CBC_decrypt_buffer` (src/aes.c lines 989-1028) with key and IV
supplied: the 16-byte output blocks written. -/
def AES128_CBC_decrypt_buffer (key iv : buf16) (inp : Nat → Byte) (length : Nat) :
    List state_t :=
  let rk := KeyExpansion key
  let cnt := (length + 15) / 16
  let rem := length % 16
  cbcDecLoop rk cnt (toState iv) inp ++
    (if rem == 0 then [] else [InvCipher rk (zeroTail (advanceN inp cnt) rem)])

/-- Byte `k` of a state (the buffer view). -/
def stateByte (s : state_t) (k : Nat) : Byte :=
  s ⟨k / 4 % 4, Nat.mod_lt _ (by decide)⟩ ⟨k % 4, Nat.mod_lt _ (by decide)⟩

/-- A list of output blocks read back as one byte buffer (how the decrypt
call sees the encrypt call's output buffer). -/
def bytesOfBlocks (bs : List state_t) : Nat → Byte :=
  fun k => stateByte (bs.getD (k / 16) zeroState) (k % 16)

/-- The first `n` 16-byte blocks of a buffer. -/
def blocksOf (inp : Nat → Byte) : Nat → List state_t
  | 0 => []
  | n + 1 => blockAt inp :: blocksOf (advance16 inp) n

/-! ## FIPS-197 / SP 800-38A test vector data (from the source's header
comment and the specification) -/

/-- Key `2b7e151628aed2a6abf7158809cf4f3c`. -/
def fipsKey : buf16 := fun k =>
  match k.val with
  | 0 => 0x2b | 1 => 0x7e | 2 => 0x15 | 3 => 0x16
  | 4 => 0x28 | 5 => 0xae | 6 => 0xd2 | 7 => 0xa6
  | 8 => 0xab | 9 => 0xf7 | 10 => 0x15 | 11 => 0x88
  | 12 => 0x09 | 13 => 0xcf | 14 => 0x4f | _ => 0x3c

/-- Plaintext block `6bc1bee22e409f96e93d7e117393172a`. -/
def fipsPlain : buf16 := fun k =>
  match k.val with
  | 0 => 0x6b | 1 => 0xc1 | 2 => 0xbe | 3 => 0xe2
  | 4 => 0x2e | 5 => 0x40 | 6 => 0x9f | 7 => 0x96
  | 8 => 0xe9 | 9 => 0x3d | 10 => 0x7e | 11 => 0x11
  | 12 => 0x73 | 13 => 0x93 | 14 => 0x17 | _ => 0x2a

/-- Expected ciphertext block `3ad77bb40d7a3660a89ecaf32466ef97`. -/
def fipsCipher : buf16 := fun k =>
  match k.val with
  | 0 => 0x3a | 1 => 0xd7 | 2 => 0x7b | 3 => 0xb4
  | 4 => 0x0d | 5 => 0x7a | 6 => 0x36 | 7 => 0x60
  | 8 => 0xa8 | 9 => 0x9e | 10 => 0xca | 11 => 0xf3
  | 12 => 0x24 | 13 => 0x66 | 14 => 0xef | _ => 0x97

/-- IV `000102030405060708090a0b0c0d0e0f` (SP 800-38A). -/
def fipsIv : buf16 := fun k => ⟨k.val, Nat.lt_trans k.isLt (by decide)⟩

/-- The FIPS plaintext repeated as an unbounded buffer. -/
def fipsStream : Nat → Byte := fun k => fipsPlain ⟨k % 16, Nat.mod_lt _ (by decide)⟩

/-- A buffer with distinguishable bytes at offsets 0 and 16: byte 0 is the
single in-bounds byte of a length-1 buffer, byte 16 is the byte after it. -/
def cexInp : Nat → Byte := fun k => if k = 0 then 1 else if k = 16 then 2 else 0

/-! ## Bit-level helper lemmas -/

theorem natXor_shiftRight (a b k : Nat) : (a ^^^ b) >>> k = (a >>> k) ^^^ (b >>> k) := by
  apply Nat.eq_of_testBit_eq
  intro i
  simp [Nat.testBit_shiftRight, Nat.testBit_xor]

theorem natXor_left_comm (a b c : Nat) : a ^^^ (b ^^^ c) = b ^^^ (a ^^^ c) := by
  rw [← Nat.xor_assoc, Nat.xor_comm a b, Nat.xor_assoc]

theorem natXor_cancel (a b : Nat) : a ^^^ (a ^^^ b) = b := by
  rw [← Nat.xor_assoc, Nat.xor_self, Nat.zero_xor]

theorem natXor_mod256 (a b : Nat) : (a ^^^ b) % 256 = (a % 256) ^^^ (b % 256) := by
  have h : (256 : Nat) = 2 ^ 8 := by norm_num
  rw [h]
  apply Nat.eq_of_testBit_eq
  intro i
  simp only [Nat.testBit_mod_two_pow, Nat.testBit_xor]
  by_cases hi : i < 8 <;> simp [hi]

/-! ## Byte XOR algebra -/

theorem bxor_val (a b : Byte) : (bxor a b).val = a.val ^^^ b.val := rfl

theorem bxor_comm (a b : Byte) : bxor a b = bxor b a := by
  apply Fin.ext
  simp only [bxor_val]
  exact Nat.xor_comm _ _

theorem bxor_assoc (a b c : Byte) : bxor (bxor a b) c = bxor a (bxor b c) := by
  apply Fin.ext
  simp only [bxor_val]
  exact Nat.xor_assoc _ _ _

theorem bxor_left_comm (a b c : Byte) : bxor a (bxor b c) = bxor b (bxor a c) := by
  apply Fin.ext
  simp only [bxor_val]
  exact natXor_left_comm _ _ _

theorem bxor_self (a : Byte) : bxor a a = 0 := by
  apply Fin.ext
  show a.val ^^^ a.val = 0
  exact Nat.xor_self _

theorem bxor_zero (a : Byte) : bxor a 0 = a := by
  apply Fin.ext
  show a.val ^^^ 0 = a.val
  exact Nat.xor_zero _

theorem zero_bxor (a : Byte) : bxor 0 a = a := by
  apply Fin.ext
  show 0 ^^^ a.val = a.val
  exact Nat.zero_xor _

theorem bxor_cancel_left (a b : Byte) : bxor a (bxor a b) = b := by
  rw [← bxor_assoc, bxor_self, zero_bxor]

theorem bxor_cancel_right (a b : Byte) : bxor (bxor b a) a = b := by
  rw [bxor_assoc, bxor_self, bxor_zero]

/-! ## The masked AND gadget -/

/-- Core identity behind `_SAND`: the gadget's value and mask XOR to the AND
of the unmasked operands; the two `0xff` biases cancel. -/
theorem sand_unmask (p1 p2 q1 q2 : Byte) :
    bxor (_SAND p1 p2 q1 q2).1 (_SAND p1 p2 q1 q2).2 = band (bxor p1 p2) (bxor q1 q2) := by
  apply Fin.ext
  show ((p1.val &&& q2.val) ^^^ (255 ^^^ (p1.val &&& q1.val))) ^^^
      (((p2.val &&& q1.val) ^^^ (p2.val &&& q2.val)) ^^^ 255) =
      (p1.val ^^^ p2.val) &&& (q1.val ^^^ q2.val)
  rw [Nat.and_xor_distrib_right, Nat.and_xor_distrib_left, Nat.and_xor_distrib_left]
  simp [Nat.xor_assoc, Nat.xor_comm, natXor_left_comm, Nat.xor_self, natXor_cancel,
    Nat.xor_zero, Nat.zero_xor]

/-! ## Unmasking commutes with the three gate types -/

theorem phi_mxor (a b : MB) : unmask (mxor a b) = bxor (unmask a) (unmask b) := by
  simp only [unmask, mxor]
  simp [bxor_assoc, bxor_comm, bxor_left_comm]

theorem phi_mand (a b : MB) : unmask (mand a b) = band (unmask a) (unmask b) := by
  simp only [unmask, mand]
  exact sand_unmask a.1 a.2 b.1 b.2

theorem phi_mnot (a : MB) : unmask (mnot a) = bnot (unmask a) := by
  simp only [unmask, mnot, bnot]
  simp [bxor_assoc, bxor_comm, bxor_left_comm]

theorem bxor_bshr (a b : Byte) (k : Nat) : bxor (bshr a k) (bshr b k) = bshr (bxor a b) k := by
  apply Fin.ext
  show (a.val >>> k) ^^^ (b.val >>> k) = (a.val ^^^ b.val) >>> k
  rw [natXor_shiftRight]

/-! ## Per-wire unmask lemmas

One lemma per circuit wire: the value and mask lanes of the masked wire XOR
to the corresponding wire of the unmasked circuit evaluated at
`num XOR numm`.  Purely mechanical: each proof unfolds one wire definition on
each side and applies the gate lemma plus the lemmas of its two operands.
-/

theorem U_0_unmask (num numm : Byte) :
    unmask (U_0 num numm) = U_0p (bxor num numm) := by
  simp only [U_0, U_0p, unmask, bxor_bshr]

theorem U_1_unmask (num numm : Byte) :
    unmask (U_1 num numm) = U_1p (bxor num numm) := by
  simp only [U_1, U_1p, unmask, bxor_bshr]

theorem U_2_unmask (num numm : Byte) :
    unmask (U_2 num numm) = U_2p (bxor num numm) := by
  simp only [U_2, U_2p, unmask, bxor_bshr]

theorem U_3_unmask (num numm : Byte) :
    unmask (U_3 num numm) = U_3p (bxor num numm) := by
  simp only [U_3, U_3p, unmask, bxor_bshr]

theorem U_4_unmask (num numm : Byte) :
    unmask (U_4 num numm) = U_4p (bxor num numm) := by
  simp only [U_4, U_4p, unmask, bxor_bshr]

theorem U_5_unmask (num numm : Byte) :
    unmask (U_5 num numm) = U_5p (bxor num numm) := by
  simp only [U_5, U_5p, unmask, bxor_bshr]

theorem U_6_unmask (num numm : Byte) :
    unmask (U_6 num numm) = U_6p (bxor num numm) := by
  simp only [U_6, U_6p, unmask, bxor_bshr]

theorem U_7_unmask (num numm : Byte) :
    unmask (U_7 num numm) = U_7p (bxor num numm) := by
  simp only [U_7, U_7p, unmask, bxor_bshr]

theorem T1_unmask (num numm : Byte) :
    unmask (T1 num numm) = T1p (bxor num numm) := by
  simp only [T1, T1p, phi_mxor, U_7_unmask, U_4_unmask]

theorem T2_unmask (num numm : Byte) :
    unmask (T2 num numm) = T2p (bxor num numm) := by
  simp only [T2, T2p, phi_mxor, U_7_unmask, U_2_unmask]

theorem T3_unmask (num numm : Byte) :
    unmask (T3 num numm) = T3p (bxor num numm) := by
  simp only [T3, T3p, phi_mxor, U_7_unmask, U_1_unmask]

theorem T4_unmask (num numm : Byte) :
    unmask (T4 num numm) = T4p (bxor num numm) := by
  simp only [T4, T4p, phi_mxor, U_4_unmask, U_2_unmask]

theorem T5_unmask (num numm : Byte) :
    unmask (T5 num numm) = T5p (bxor num numm) := by
  simp only [T5, T5p, phi_mxor, U_3_unmask, U_1_unmask]

theorem T6_unmask (num numm : Byte) :
    unmask (T6 num numm) = T6p (bxor num numm) := by
  simp only [T6, T6p, phi_mxor, T1_unmask, T5_unmask]

theorem T7_unmask (num numm : Byte) :
    unmask (T7 num numm) = T7p (bxor num numm) := by
  simp only [T7, T7p, phi_mxor, U_6_unmask, U_5_unmask]

theorem T8_unmask (num numm : Byte) :
    unmask (T8 num numm) = T8p (bxor num numm) := by
  simp only [T8, T8p, phi_mxor, U_0_unmask, T6_unmask]

theorem T9_unmask (num numm : Byte) :
    unmask (T9 num numm) = T9p (bxor num numm) := by
  simp only [T9, T9p, phi_mxor, U_0_unmask, T7_unmask]

theorem T10_unmask (num numm : Byte) :
    unmask (T10 num numm) = T10p (bxor num numm) := by
  simp only [T10, T10p, phi_mxor, T6_unmask, T7_unmask]

theorem T11_unmask (num numm : Byte) :
    unmask (T11 num numm) = T11p (bxor num numm) := by
  simp only [T11, T11p, phi_mxor, U_6_unmask, U_2_unmask]

theorem T12_unmask (num numm : Byte) :
    unmask (T12 num numm) = T12p (bxor num numm) := by
  simp only [T12, T12p, phi_mxor, U_5_unmask, U_2_unmask]

theorem T13_unmask (num numm : Byte) :
    unmask (T13 num numm) = T13p (bxor num numm) := by
  simp only [T13, T13p, phi_mxor, T3_unmask, T4_unmask]

theorem T14_unmask (num numm : Byte) :
    unmask (T14 num numm) = T14p (bxor num numm) := by
  simp only [T14, T14p, phi_mxor, T6_unmask, T11_unmask]

theorem T15_unmask (num numm : Byte) :
    unmask (T15 num numm) = T15p (bxor num numm) := by
  simp only [T15, T15p, phi_mxor, T5_unmask, T11_unmask]

theorem T16_unmask (num numm : Byte) :
    unmask (T16 num numm) = T16p (bxor num numm) := by
  simp only [T16, T16p, phi_mxor, T5_unmask, T12_unmask]

theorem T17_unmask (num numm : Byte) :
    unmask (T17 num numm) = T17p (bxor num numm) := by
  simp only [T17, T17p, phi_mxor, T9_unmask, T16_unmask]

theorem T18_unmask (num numm : Byte) :
    unmask (T18 num numm) = T18p (bxor num numm) := by
  simp only [T18, T18p, phi_mxor, U_4_unmask, U_0_unmask]

theorem T19_unmask (num numm : Byte) :
    unmask (T19 num numm) = T19p (bxor num numm) := by
  simp only [T19, T19p, phi_mxor, T7_unmask, T18_unmask]

theorem T20_unmask (num numm : Byte) :
    unmask (T20 num numm) = T20p (bxor num numm) := by
  simp only [T20, T20p, phi_mxor, T1_unmask, T19_unmask]

theorem T21_unmask (num numm : Byte) :
    unmask (T21 num numm) = T21p (bxor num numm) := by
  simp only [T21, T21p, phi_mxor, U_1_unmask, U_0_unmask]

theorem T22_unmask (num numm : Byte) :
    unmask (T22 num numm) = T22p (bxor num numm) := by
  simp only [T22, T22p, phi_mxor, T7_unmask, T21_unmask]

theorem T23_unmask (num numm : Byte) :
    unmask (T23 num numm) = T23p (bxor num numm) := by
  simp only [T23, T23p, phi_mxor, T2_unmask, T22_unmask]

theorem T24_unmask (num numm : Byte) :
    unmask (T24 num numm) = T24p (bxor num numm) := by
  simp only [T24, T24p, phi_mxor, T2_unmask, T10_unmask]

theorem T25_unmask (num numm : Byte) :
    unmask (T25 num numm) = T25p (bxor num numm) := by
  simp only [T25, T25p, phi_mxor, T20_unmask, T17_unmask]

theorem T26_unmask (num numm : Byte) :
    unmask (T26 num numm) = T26p (bxor num numm) := by
  simp only [T26, T26p, phi_mxor, T3_unmask, T16_unmask]

theorem T27_unmask (num numm : Byte) :
    unmask (T27 num numm) = T27p (bxor num numm) := by
  simp only [T27, T27p, phi_mxor, T1_unmask, T12_unmask]

theorem M1_unmask (num numm : Byte) :
    unmask (M1 num numm) = M1p (bxor num numm) := by
  simp only [M1, M1p, phi_mand, T13_unmask, T6_unmask]

theorem M2_unmask (num numm : Byte) :
    unmask (M2 num numm) = M2p (bxor num numm) := by
  simp only [M2, M2p, phi_mand, T23_unmask, T8_unmask]

theorem M3_unmask (num numm : Byte) :
    unmask (M3 num numm) = M3p (bxor num numm) := by
  simp only [M3, M3p, phi_mxor, T14_unmask, M1_unmask]

theorem M4_unmask (num numm : Byte) :
    unmask (M4 num numm) = M4p (bxor num numm) := by
  simp only [M4, M4p, phi_mand, T19_unmask, U_0_unmask]

theorem M5_unmask (num numm : Byte) :
    unmask (M5 num numm) = M5p (bxor num numm) := by
  simp only [M5, M5p, phi_mxor, M4_unmask, M1_unmask]

theorem M6_unmask (num numm : Byte) :
    unmask (M6 num numm) = M6p (bxor num numm) := by
  simp only [M6, M6p, phi_mand, T3_unmask, T16_unmask]

theorem M7_unmask (num numm : Byte) :
    unmask (M7 num numm) = M7p (bxor num numm) := by
  simp only [M7, M7p, phi_mand, T22_unmask, T9_unmask]

theorem M8_unmask (num numm : Byte) :
    unmask (M8 num numm) = M8p (bxor num numm) := by
  simp only [M8, M8p, phi_mxor, T26_unmask, M6_unmask]

theorem M9_unmask (num numm : Byte) :
    unmask (M9 num numm) = M9p (bxor num numm) := by
  simp only [M9, M9p, phi_mand, T20_unmask, T17_unmask]

theorem M10_unmask (num numm : Byte) :
    unmask (M10 num numm) = M10p (bxor num numm) := by
  simp only [M10, M10p, phi_mxor, M9_unmask, M6_unmask]

theorem M11_unmask (num numm : Byte) :
    unmask (M11 num numm) = M11p (bxor num numm) := by
  simp only [M11, M11p, phi_mand, T1_unmask, T15_unmask]

theorem M12_unmask (num numm : Byte) :
    unmask (M12 num numm) = M12p (bxor num numm) := by
  simp only [M12, M12p, phi_mand, T4_unmask, T27_unmask]

theorem M13_unmask (num numm : Byte) :
    unmask (M13 num numm) = M13p (bxor num numm) := by
  simp only [M13, M13p, phi_mxor, M12_unmask, M11_unmask]

theorem M14_unmask (num numm : Byte) :
    unmask (M14 num numm) = M14p (bxor num numm) := by
  simp only [M14, M14p, phi_mand, T2_unmask, T10_unmask]

theorem M15_unmask (num numm : Byte) :
    unmask (M15 num numm) = M15p (bxor num numm) := by
  simp only [M15, M15p, phi_mxor, M14_unmask, M11_unmask]

theorem M16_unmask (num numm : Byte) :
    unmask (M16 num numm) = M16p (bxor num numm) := by
  simp only [M16, M16p, phi_mxor, M3_unmask, M2_unmask]

theorem M17_unmask (num numm : Byte) :
    unmask (M17 num numm) = M17p (bxor num numm) := by
  simp only [M17, M17p, phi_mxor, M5_unmask, T24_unmask]

theorem M18_unmask (num numm : Byte) :
    unmask (M18 num numm) = M18p (bxor num numm) := by
  simp only [M18, M18p, phi_mxor, M8_unmask, M7_unmask]

theorem M19_unmask (num numm : Byte) :
    unmask (M19 num numm) = M19p (bxor num numm) := by
  simp only [M19, M19p, phi_mxor, M10_unmask, M15_unmask]

theorem M20_unmask (num numm : Byte) :
    unmask (M20 num numm) = M20p (bxor num numm) := by
  simp only [M20, M20p, phi_mxor, M16_unmask, M13_unmask]

theorem M21_unmask (num numm : Byte) :
    unmask (M21 num numm) = M21p (bxor num numm) := by
  simp only [M21, M21p, phi_mxor, M17_unmask, M15_unmask]

theorem M22_unmask (num numm : Byte) :
    unmask (M22 num numm) = M22p (bxor num numm) := by
  simp only [M22, M22p, phi_mxor, M18_unmask, M13_unmask]

theorem M23_unmask (num numm : Byte) :
    unmask (M23 num numm) = M23p (bxor num numm) := by
  simp only [M23, M23p, phi_mxor, M19_unmask, T25_unmask]

theorem M24_unmask (num numm : Byte) :
    unmask (M24 num numm) = M24p (bxor num numm) := by
  simp only [M24, M24p, phi_mxor, M22_unmask, M23_unmask]

theorem M25_unmask (num numm : Byte) :
    unmask (M25 num numm) = M25p (bxor num numm) := by
  simp only [M25, M25p, phi_mand, M22_unmask, M20_unmask]

theorem M26_unmask (num numm : Byte) :
    unmask (M26 num numm) = M26p (bxor num numm) := by
  simp only [M26, M26p, phi_mxor, M21_unmask, M25_unmask]

theorem M27_unmask (num numm : Byte) :
    unmask (M27 num numm) = M27p (bxor num numm) := by
  simp only [M27, M27p, phi_mxor, M20_unmask, M21_unmask]

theorem M28_unmask (num numm : Byte) :
    unmask (M28 num numm) = M28p (bxor num numm) := by
  simp only [M28, M28p, phi_mxor, M23_unmask, M25_unmask]

theorem M29_unmask (num numm : Byte) :
    unmask (M29 num numm) = M29p (bxor num numm) := by
  simp only [M29, M29p, phi_mand, M28_unmask, M27_unmask]

theorem M30_unmask (num numm : Byte) :
    unmask (M30 num numm) = M30p (bxor num numm) := by
  simp only [M30, M30p, phi_mand, M26_unmask, M24_unmask]

theorem M31_unmask (num numm : Byte) :
    unmask (M31 num numm) = M31p (bxor num numm) := by
  simp only [M31, M31p, phi_mand, M20_unmask, M23_unmask]

theorem M32_unmask (num numm : Byte) :
    unmask (M32 num numm) = M32p (bxor num numm) := by
  simp only [M32, M32p, phi_mand, M27_unmask, M31_unmask]

theorem M33_unmask (num numm : Byte) :
    unmask (M33 num numm) = M33p (bxor num numm) := by
  simp only [M33, M33p, phi_mxor, M27_unmask, M25_unmask]

theorem M34_unmask (num numm : Byte) :
    unmask (M34 num numm) = M34p (bxor num numm) := by
  simp only [M34, M34p, phi_mand, M21_unmask, M22_unmask]

theorem M35_unmask (num numm : Byte) :
    unmask (M35 num numm) = M35p (bxor num numm) := by
  simp only [M35, M35p, phi_mand, M24_unmask, M34_unmask]

theorem M36_unmask (num numm : Byte) :
    unmask (M36 num numm) = M36p (bxor num numm) := by
  simp only [M36, M36p, phi_mxor, M24_unmask, M25_unmask]

theorem M37_unmask (num numm : Byte) :
    unmask (M37 num numm) = M37p (bxor num numm) := by
  simp only [M37, M37p, phi_mxor, M21_unmask, M29_unmask]

theorem M38_unmask (num numm : Byte) :
    unmask (M38 num numm) = M38p (bxor num numm) := by
  simp only [M38, M38p, phi_mxor, M32_unmask, M33_unmask]

theorem M39_unmask (num numm : Byte) :
    unmask (M39 num numm) = M39p (bxor num numm) := by
  simp only [M39, M39p, phi_mxor, M23_unmask, M30_unmask]

theorem M40_unmask (num numm : Byte) :
    unmask (M40 num numm) = M40p (bxor num numm) := by
  simp only [M40, M40p, phi_mxor, M35_unmask, M36_unmask]

theorem M41_unmask (num numm : Byte) :
    unmask (M41 num numm) = M41p (bxor num numm) := by
  simp only [M41, M41p, phi_mxor, M38_unmask, M40_unmask]

theorem M42_unmask (num numm : Byte) :
    unmask (M42 num numm) = M42p (bxor num numm) := by
  simp only [M42, M42p, phi_mxor, M37_unmask, M39_unmask]

theorem M43_unmask (num numm : Byte) :
    unmask (M43 num numm) = M43p (bxor num numm) := by
  simp only [M43, M43p, phi_mxor, M37_unmask, M38_unmask]

theorem M44_unmask (num numm : Byte) :
    unmask (M44 num numm) = M44p (bxor num numm) := by
  simp only [M44, M44p, phi_mxor, M39_unmask, M40_unmask]

theorem M45_unmask (num numm : Byte) :
    unmask (M45 num numm) = M45p (bxor num numm) := by
  simp only [M45, M45p, phi_mxor, M42_unmask, M41_unmask]

theorem M46_unmask (num numm : Byte) :
    unmask (M46 num numm) = M46p (bxor num numm) := by
  simp only [M46, M46p, phi_mand, M44_unmask, T6_unmask]

theorem M47_unmask (num numm : Byte) :
    unmask (M47 num numm) = M47p (bxor num numm) := by
  simp only [M47, M47p, phi_mand, M40_unmask, T8_unmask]

theorem M48_unmask (num numm : Byte) :
    unmask (M48 num numm) = M48p (bxor num numm) := by
  simp only [M48, M48p, phi_mand, M39_unmask, U_0_unmask]

theorem M49_unmask (num numm : Byte) :
    unmask (M49 num numm) = M49p (bxor num numm) := by
  simp only [M49, M49p, phi_mand, M43_unmask, T16_unmask]

theorem M50_unmask (num numm : Byte) :
    unmask (M50 num numm) = M50p (bxor num numm) := by
  simp only [M50, M50p, phi_mand, M38_unmask, T9_unmask]

theorem M51_unmask (num numm : Byte) :
    unmask (M51 num numm) = M51p (bxor num numm) := by
  simp only [M51, M51p, phi_mand, M37_unmask, T17_unmask]

theorem M52_unmask (num numm : Byte) :
    unmask (M52 num numm) = M52p (bxor num numm) := by
  simp only [M52, M52p, phi_mand, M42_unmask, T15_unmask]

theorem M53_unmask (num numm : Byte) :
    unmask (M53 num numm) = M53p (bxor num numm) := by
  simp only [M53, M53p, phi_mand, M45_unmask, T27_unmask]

theorem M54_unmask (num numm : Byte) :
    unmask (M54 num numm) = M54p (bxor num numm) := by
  simp only [M54, M54p, phi_mand, M41_unmask, T10_unmask]

theorem M55_unmask (num numm : Byte) :
    unmask (M55 num numm) = M55p (bxor num numm) := by
  simp only [M55, M55p, phi_mand, M44_unmask, T13_unmask]

theorem M56_unmask (num numm : Byte) :
    unmask (M56 num numm) = M56p (bxor num numm) := by
  simp only [M56, M56p, phi_mand, M40_unmask, T23_unmask]

theorem M57_unmask (num numm : Byte) :
    unmask (M57 num numm) = M57p (bxor num numm) := by
  simp only [M57, M57p, phi_mand, M39_unmask, T19_unmask]

theorem M58_unmask (num numm : Byte) :
    unmask (M58 num numm) = M58p (bxor num numm) := by
  simp only [M58, M58p, phi_mand, M43_unmask, T3_unmask]

theorem M59_unmask (num numm : Byte) :
    unmask (M59 num numm) = M59p (bxor num numm) := by
  simp only [M59, M59p, phi_mand, M38_unmask, T22_unmask]

theorem M60_unmask (num numm : Byte) :
    unmask (M60 num numm) = M60p (bxor num numm) := by
  simp only [M60, M60p, phi_mand, M37_unmask, T20_unmask]

theorem M61_unmask (num numm : Byte) :
    unmask (M61 num numm) = M61p (bxor num numm) := by
  simp only [M61, M61p, phi_mand, M42_unmask, T1_unmask]

theorem M62_unmask (num numm : Byte) :
    unmask (M62 num numm) = M62p (bxor num numm) := by
  simp only [M62, M62p, phi_mand, M45_unmask, T4_unmask]

theorem M63_unmask (num numm : Byte) :
    unmask (M63 num numm) = M63p (bxor num numm) := by
  simp only [M63, M63p, phi_mand, M41_unmask, T2_unmask]

theorem L0_unmask (num numm : Byte) :
    unmask (L0 num numm) = L0p (bxor num numm) := by
  simp only [L0, L0p, phi_mxor, M61_unmask, M62_unmask]

theorem L1_unmask (num numm : Byte) :
    unmask (L1 num numm) = L1p (bxor num numm) := by
  simp only [L1, L1p, phi_mxor, M50_unmask, M56_unmask]

theorem L2_unmask (num numm : Byte) :
    unmask (L2 num numm) = L2p (bxor num numm) := by
  simp only [L2, L2p, phi_mxor, M46_unmask, M48_unmask]

theorem L3_unmask (num numm : Byte) :
    unmask (L3 num numm) = L3p (bxor num numm) := by
  simp only [L3, L3p, phi_mxor, M47_unmask, M55_unmask]

theorem L4_unmask (num numm : Byte) :
    unmask (L4 num numm) = L4p (bxor num numm) := by
  simp only [L4, L4p, phi_mxor, M54_unmask, M58_unmask]

theorem L5_unmask (num numm : Byte) :
    unmask (L5 num numm) = L5p (bxor num numm) := by
  simp only [L5, L5p, phi_mxor, M49_unmask, M61_unmask]

theorem L6_unmask (num numm : Byte) :
    unmask (L6 num numm) = L6p (bxor num numm) := by
  simp only [L6, L6p, phi_mxor, M62_unmask, L5_unmask]

theorem L7_unmask (num numm : Byte) :
    unmask (L7 num numm) = L7p (bxor num numm) := by
  simp only [L7, L7p, phi_mxor, M46_unmask, L3_unmask]

theorem L8_unmask (num numm : Byte) :
    unmask (L8 num numm) = L8p (bxor num numm) := by
  simp only [L8, L8p, phi_mxor, M51_unmask, M59_unmask]

theorem L9_unmask (num numm : Byte) :
    unmask (L9 num numm) = L9p (bxor num numm) := by
  simp only [L9, L9p, phi_mxor, M52_unmask, M53_unmask]

theorem L10_unmask (num numm : Byte) :
    unmask (L10 num numm) = L10p (bxor num numm) := by
  simp only [L10, L10p, phi_mxor, M53_unmask, L4_unmask]

theorem L11_unmask (num numm : Byte) :
    unmask (L11 num numm) = L11p (bxor num numm) := by
  simp only [L11, L11p, phi_mxor, M60_unmask, L2_unmask]

theorem L12_unmask (num numm : Byte) :
    unmask (L12 num numm) = L12p (bxor num numm) := by
  simp only [L12, L12p, phi_mxor, M48_unmask, M51_unmask]

theorem L13_unmask (num numm : Byte) :
    unmask (L13 num numm) = L13p (bxor num numm) := by
  simp only [L13, L13p, phi_mxor, M50_unmask, L0_unmask]

theorem L14_unmask (num numm : Byte) :
    unmask (L14 num numm) = L14p (bxor num numm) := by
  simp only [L14, L14p, phi_mxor, M52_unmask, M61_unmask]

theorem L15_unmask (num numm : Byte) :
    unmask (L15 num numm) = L15p (bxor num numm) := by
  simp only [L15, L15p, phi_mxor, M55_unmask, L1_unmask]

theorem L16_unmask (num numm : Byte) :
    unmask (L16 num numm) = L16p (bxor num numm) := by
  simp only [L16, L16p, phi_mxor, M56_unmask, L0_unmask]

theorem L17_unmask (num numm : Byte) :
    unmask (L17 num numm) = L17p (bxor num numm) := by
  simp only [L17, L17p, phi_mxor, M57_unmask, L1_unmask]

theorem L18_unmask (num numm : Byte) :
    unmask (L18 num numm) = L18p (bxor num numm) := by
  simp only [L18, L18p, phi_mxor, M58_unmask, L8_unmask]

theorem L19_unmask (num numm : Byte) :
    unmask (L19 num numm) = L19p (bxor num numm) := by
  simp only [L19, L19p, phi_mxor, M63_unmask, L4_unmask]

theorem L20_unmask (num numm : Byte) :
    unmask (L20 num numm) = L20p (bxor num numm) := by
  simp only [L20, L20p, phi_mxor, L0_unmask, L1_unmask]

theorem L21_unmask (num numm : Byte) :
    unmask (L21 num numm) = L21p (bxor num numm) := by
  simp only [L21, L21p, phi_mxor, L1_unmask, L7_unmask]

theorem L22_unmask (num numm : Byte) :
    unmask (L22 num numm) = L22p (bxor num numm) := by
  simp only [L22, L22p, phi_mxor, L3_unmask, L12_unmask]

theorem L23_unmask (num numm : Byte) :
    unmask (L23 num numm) = L23p (bxor num numm) := by
  simp only [L23, L23p, phi_mxor, L18_unmask, L2_unmask]

theorem L24_unmask (num numm : Byte) :
    unmask (L24 num numm) = L24p (bxor num numm) := by
  simp only [L24, L24p, phi_mxor, L15_unmask, L9_unmask]

theorem L25_unmask (num numm : Byte) :
    unmask (L25 num numm) = L25p (bxor num numm) := by
  simp only [L25, L25p, phi_mxor, L6_unmask, L10_unmask]

theorem L26_unmask (num numm : Byte) :
    unmask (L26 num numm) = L26p (bxor num numm) := by
  simp only [L26, L26p, phi_mxor, L7_unmask, L9_unmask]

theorem L27_unmask (num numm : Byte) :
    unmask (L27 num numm) = L27p (bxor num numm) := by
  simp only [L27, L27p, phi_mxor, L8_unmask, L10_unmask]

theorem L28_unmask (num numm : Byte) :
    unmask (L28 num numm) = L28p (bxor num numm) := by
  simp only [L28, L28p, phi_mxor, L11_unmask, L14_unmask]

theorem L29_unmask (num numm : Byte) :
    unmask (L29 num numm) = L29p (bxor num numm) := by
  simp only [L29, L29p, phi_mxor, L11_unmask, L17_unmask]

theorem W_7_unmask (num numm : Byte) :
    unmask (W_7 num numm) = W_7p (bxor num numm) := by
  simp only [W_7, W_7p, outputLane, Lwires, phi_mxor, L6_unmask, L24_unmask]

theorem W_6_unmask (num numm : Byte) :
    unmask (W_6 num numm) = W_6p (bxor num numm) := by
  simp only [W_6, W_6p, outputLane, Lwires, phi_mnot, phi_mxor, L16_unmask, L26_unmask]

theorem W_5_unmask (num numm : Byte) :
    unmask (W_5 num numm) = W_5p (bxor num numm) := by
  simp only [W_5, W_5p, outputLane, Lwires, phi_mnot, phi_mxor, L19_unmask, L28_unmask]

theorem W_4_unmask (num numm : Byte) :
    unmask (W_4 num numm) = W_4p (bxor num numm) := by
  simp only [W_4, W_4p, outputLane, Lwires, phi_mxor, L6_unmask, L21_unmask]

theorem W_3_unmask (num numm : Byte) :
    unmask (W_3 num numm) = W_3p (bxor num numm) := by
  simp only [W_3, W_3p, outputLane, Lwires, phi_mxor, L20_unmask, L22_unmask]

theorem W_2_unmask (num numm : Byte) :
    unmask (W_2 num numm) = W_2p (bxor num numm) := by
  simp only [W_2, W_2p, outputLane, Lwires, phi_mxor, L25_unmask, L29_unmask]

theorem W_1_unmask (num numm : Byte) :
    unmask (W_1 num numm) = W_1p (bxor num numm) := by
  simp only [W_1, W_1p, outputLane, Lwires, phi_mnot, phi_mxor, L13_unmask, L27_unmask]

theorem W_0_unmask (num numm : Byte) :
    unmask (W_0 num numm) = W_0p (bxor num numm) := by
  simp only [W_0, W_0p, outputLane, Lwires, phi_mnot, phi_mxor, L6_unmask, L23_unmask]

/-! ## Assembling the masked S-box correctness -/

theorem testBit_mod256 (x i : Nat) :
    (x % 256).testBit i = (decide (i < 8) && x.testBit i) := by
  have h : (256 : Nat) = 2 ^ 8 := by norm_num
  rw [h, Nat.testBit_mod_two_pow]

theorem testBit_and_one (x : Nat) (i : Nat) :
    (x &&& 1).testBit i = (decide (i = 0) && x.testBit 0) := by
  rcases i with _ | j
  · simp [Nat.testBit_and]
  · simp only [Nat.testBit_and]
    have h1 : (1 : Nat).testBit (j + 1) = false := by
      simp [Nat.testBit_succ]
    simp [h1]

/-- XOR acts lane-wise on packed outputs: each bit position of the packed
byte is served by exactly one lane. -/
theorem pack_xor (a0 a1 a2 a3 a4 a5 a6 a7 b0 b1 b2 b3 b4 b5 b6 b7 : Byte) :
    bxor (packLanes a0 a1 a2 a3 a4 a5 a6 a7) (packLanes b0 b1 b2 b3 b4 b5 b6 b7) =
      packLanes (bxor a0 b0) (bxor a1 b1) (bxor a2 b2) (bxor a3 b3)
        (bxor a4 b4) (bxor a5 b5) (bxor a6 b6) (bxor a7 b7) := by
  apply Fin.ext
  show ((((a0.val &&& 0x01) <<< 0) ||| ((a1.val &&& 0x01) <<< 1) ||| ((a2.val &&& 0x01) <<< 2) |||
      ((a3.val &&& 0x01) <<< 3) ||| ((a4.val &&& 0x01) <<< 4) ||| ((a5.val &&& 0x01) <<< 5) |||
      ((a6.val &&& 0x01) <<< 6) ||| (a7.val <<< 7)) % 256) ^^^
      ((((b0.val &&& 0x01) <<< 0) ||| ((b1.val &&& 0x01) <<< 1) ||| ((b2.val &&& 0x01) <<< 2) |||
      ((b3.val &&& 0x01) <<< 3) ||| ((b4.val &&& 0x01) <<< 4) ||| ((b5.val &&& 0x01) <<< 5) |||
      ((b6.val &&& 0x01) <<< 6) ||| (b7.val <<< 7)) % 256) =
      ((((a0.val ^^^ b0.val) &&& 0x01) <<< 0) ||| (((a1.val ^^^ b1.val) &&& 0x01) <<< 1) |||
      (((a2.val ^^^ b2.val) &&& 0x01) <<< 2) ||| (((a3.val ^^^ b3.val) &&& 0x01) <<< 3) |||
      (((a4.val ^^^ b4.val) &&& 0x01) <<< 4) ||| (((a5.val ^^^ b5.val) &&& 0x01) <<< 5) |||
      (((a6.val ^^^ b6.val) &&& 0x01) <<< 6) ||| ((a7.val ^^^ b7.val) <<< 7)) % 256
  apply Nat.eq_of_testBit_eq
  intro i
  simp only [Nat.testBit_xor, testBit_mod256, Nat.testBit_or, Nat.testBit_shiftLeft,
    testBit_and_one]
  by_cases hi : i < 8
  · interval_cases i <;> simp [Bool.xor_comm]
  · simp [hi]

set_option maxRecDepth 40000 in
/-- The masked S-box unmasks to the plain circuit: value XOR mask of the
output equals the circuit run on value XOR mask of the input. -/
theorem getSBoxValuem_unmask (num numm : Byte) :
    bxor (getSBoxValuem num numm).1 (getSBoxValuem num numm).2 =
      sboxCircuit (bxor num numm) := by
  have h0 := W_0_unmask num numm
  have h1 := W_1_unmask num numm
  have h2 := W_2_unmask num numm
  have h3 := W_3_unmask num numm
  have h4 := W_4_unmask num numm
  have h5 := W_5_unmask num numm
  have h6 := W_6_unmask num numm
  have h7 := W_7_unmask num numm
  simp only [unmask] at h0 h1 h2 h3 h4 h5 h6 h7
  simp only [getSBoxValuem, sboxCircuit]
  rw [pack_xor, h0, h1, h2, h3, h4, h5, h6, h7]

/-! ## The packed tables agree with the C tables -/

theorem tableMatches_sound (P : Nat) :
    ∀ (l : List Byte) (i : Nat), tableMatches P l i = true →
      ∀ k, k < l.length → (l.getD k 0).val = lookup P (i + k) := by
  intro l
  induction l with
  | nil => intro i _ k hk; simp at hk
  | cons b rest ih =>
    intro i h k hk
    simp only [tableMatches, Bool.and_eq_true, beq_iff_eq] at h
    rcases k with _ | k2
    · simpa using h.1
    · have h2 := ih (i + 1) h.2 k2 (by simpa using hk)
      have harith : i + 1 + k2 = i + (k2 + 1) := by omega
      rw [harith] at h2
      simpa [List.getD_cons_succ] using h2

set_option maxRecDepth 100000 in
theorem sbox_matches : tableMatches sboxP sbox 0 = true := by decide!

set_option maxRecDepth 100000 in
theorem rsbox_matches : tableMatches rsboxP rsbox 0 = true := by decide!

set_option maxRecDepth 100000 in
theorem Rcon_matches : tableMatches RconP Rcon 0 = true := by decide!

set_option maxRecDepth 100000 in
theorem sbox_length : sbox.length = 256 := by decide!

set_option maxRecDepth 100000 in
theorem rsbox_length : rsbox.length = 256 := by decide!

/-- The executable `getSBoxValue` returns exactly `sbox[num]`. -/
theorem sbox_getD_eq (num : Byte) : sbox.getD num.val 0 = getSBoxValue num := by
  apply Fin.ext
  have h := tableMatches_sound sboxP sbox 0 sbox_matches num.val
    (by rw [sbox_length]; exact num.isLt)
  simpa using h

/-- The executable `getSBoxInvert` returns exactly `rsbox[num]`. -/
theorem rsbox_getD_eq (num : Byte) : rsbox.getD num.val 0 = getSBoxInvert num := by
  apply Fin.ext
  have h := tableMatches_sound rsboxP rsbox 0 rsbox_matches num.val
    (by rw [rsbox_length]; exact num.isLt)
  simpa using h

/-- The packed round-constant table agrees with `Rcon`. -/
theorem Rcon_getD_eq (i : Nat) (h : i < 255) : (Rcon.getD i 0).val = RconN i := by
  have hl : Rcon.length = 255 := by decide!
  have := tableMatches_sound RconP Rcon 0 Rcon_matches i (by rw [hl]; exact h)
  simpa using this

set_option maxRecDepth 100000 in
/-- The plain circuit computes the forward S-box table. -/
theorem circuit_eq_table : ∀ u : Byte, sboxCircuit u = getSBoxValue u := by decide!

/-- Full masked S-box correctness (helper form). -/
theorem getSBoxValuem_correct (num numm : Byte) :
    bxor (getSBoxValuem num numm).1 (getSBoxValuem num numm).2 =
      getSBoxValue (bxor num numm) := by
  rw [getSBoxValuem_unmask, circuit_eq_table]

/-! ## The mask flows through every round operation -/

theorem norm16_eq (s : state_t) : norm16 s = s := by
  funext i j
  fin_cases i <;> fin_cases j <;> rfl

/-- Masked SubBytes unmasks to plain SubBytes. -/
theorem subBytesm_unmask (s m : state_t) :
    xorState (SubBytesm s m).1 (SubBytesm s m).2 = SubBytes (xorState s m) := by
  funext i j
  exact getSBoxValuem_correct (s i j) (m i j)

/-- ShiftRows is a permutation of positions, so it commutes with the
componentwise XOR. -/
theorem shiftRows_xor (s m : state_t) :
    ShiftRows (xorState s m) = xorState (ShiftRows s) (ShiftRows m) := rfl

theorem natXor_shiftLeft (a b k : Nat) : (a ^^^ b) <<< k = (a <<< k) ^^^ (b <<< k) := by
  apply Nat.eq_of_testBit_eq
  intro i
  simp [Nat.testBit_shiftLeft, Nat.testBit_xor, Bool.and_xor_distrib_left]

theorem bitMul27_xor (ta tb : Nat) (ha : ta ≤ 1) (hb : tb ≤ 1) :
    (ta ^^^ tb) * 27 = ta * 27 ^^^ tb * 27 := by
  interval_cases ta <;> interval_cases tb <;> decide

/-- `xtime` is linear over XOR (multiplication by `x` in GF(2⁸)). -/
theorem xtime_bxor (a b : Byte) : xtime (bxor a b) = bxor (xtime a) (xtime b) := by
  apply Fin.ext
  show (((a.val ^^^ b.val) <<< 1) ^^^ ((((a.val ^^^ b.val) >>> 7) &&& 1) * 27)) % 256 =
    (((a.val <<< 1) ^^^ (((a.val >>> 7) &&& 1) * 27)) % 256) ^^^
    (((b.val <<< 1) ^^^ (((b.val >>> 7) &&& 1) * 27)) % 256)
  rw [natXor_shiftLeft, natXor_shiftRight, Nat.and_xor_distrib_right,
    bitMul27_xor _ _ Nat.and_le_right Nat.and_le_right, ← natXor_mod256]
  congr 1
  simp [Nat.xor_assoc, Nat.xor_comm, natXor_left_comm]

/-- Each entry of the MixColumns row transform is linear over XOR. -/
theorem mixCol_xor (a b c d a2 b2 c2 d2 : Byte) (j : Nat) :
    mixCol (bxor a a2) (bxor b b2) (bxor c c2) (bxor d d2) j =
      bxor (mixCol a b c d j) (mixCol a2 b2 c2 d2 j) := by
  rcases j with _ | _ | _ | _ <;>
    simp [mixCol, xtime_bxor, bxor_assoc, bxor_comm, bxor_left_comm]

theorem mixColumns_xor (s m : state_t) :
    MixColumns (xorState s m) = xorState (MixColumns s) (MixColumns m) := by
  funext i j
  exact mixCol_xor (s i 0) (s i 1) (s i 2) (s i 3) (m i 0) (m i 1) (m i 2) (m i 3) j.val

/-- Adding a round key to the value lane only preserves the represented
value: the key XORs straight through the mask. -/
theorem addRoundKey_xor (rk : Nat) (r : Nat) (s m : state_t) :
    AddRoundKey rk r (xorState s m) = xorState (AddRoundKey rk r s) m := by
  funext i j
  show bxor (bxor (s i j) (m i j)) _ = bxor (bxor (s i j) _) (m i j)
  simp [bxor_assoc, bxor_comm, bxor_left_comm]

theorem xorState_cancel (s seed : state_t) : xorState (xorState s seed) seed = s := by
  funext i j
  exact bxor_cancel_right (seed i j) (s i j)

/-- One masked round computes one unmasked reference round on the
represented value. -/
theorem cipherRound_unmask (rk : Nat) (r : Nat) (p : state_t × state_t) :
    xorState (cipherRound rk r p).1 (cipherRound rk r p).2 =
      refRound rk r (xorState p.1 p.2) := by
  simp only [cipherRound, refRound]
  rw [← addRoundKey_xor, ← mixColumns_xor, ← shiftRows_xor, subBytesm_unmask, norm16_eq]

theorem cipherRounds_unmask (rk : Nat) :
    ∀ (n : Nat) (s m : state_t),
      xorState (cipherRounds rk n (s, m)).1 (cipherRounds rk n (s, m)).2 =
        refRounds rk n (xorState s m) := by
  intro n
  induction n with
  | zero => intro s m; rfl
  | succ n ih =>
    intro s m
    show xorState (cipherRound rk (n + 1) (cipherRounds rk n (s, m))).1
        (cipherRound rk (n + 1) (cipherRounds rk n (s, m))).2 = _
    rw [cipherRound_unmask, ih]
    rfl

/-- The seed-parameterised cipher equals the unmasked reference cipher,
whatever the seed: the mask injected at the start propagates through every
round in the mask lane and is removed at the end. -/
theorem cipherWithSeed_eq_ref (rk : Nat) (seed s : state_t) :
    CipherWithSeed rk seed s = CipherRef rk s := by
  simp only [CipherWithSeed, CipherRef]
  rw [← addRoundKey_xor, ← shiftRows_xor, subBytesm_unmask,
    cipherRounds_unmask rk 9 (AddRoundKey rk 0 (xorState s seed)) seed,
    ← addRoundKey_xor, xorState_cancel, norm16_eq]

/-- `Cipher` equals the unmasked reference cipher. -/
theorem cipher_eq_ref (rk : Nat) (s : state_t) : Cipher rk s = CipherRef rk s :=
  cipherWithSeed_eq_ref rk Rng s

/-! ## The inverse cipher undoes the reference cipher -/

set_option maxRecDepth 100000 in
theorem sbox_inverse : ∀ x : Byte, getSBoxInvert (getSBoxValue x) = x := by decide!

theorem invSub_sub (s : state_t) : InvSubBytes (SubBytes s) = s := by
  funext i j
  exact sbox_inverse (s i j)

theorem fin4_sub_add (i j : Fin 4) : i - j + j = i := by
  apply Fin.ext
  simp [Fin.sub_def, Fin.add_def]
  omega

theorem invShift_shift (s : state_t) : InvShiftRows (ShiftRows s) = s := by
  funext i j
  show s (i - j + j) j = s i j
  rw [fin4_sub_add]

theorem ark_ark (rk : Nat) (r : Nat) (s : state_t) :
    AddRoundKey rk r (AddRoundKey rk r s) = s := by
  funext i j
  exact bxor_cancel_right _ (s i j)

theorem bitMul_xor (t u v : Nat) (ht : t ≤ 1) : t * (u ^^^ v) = t * u ^^^ t * v := by
  interval_cases t <;> simp

theorem andOneMul_xor (w u v : Nat) : (w &&& 1) * (u ^^^ v) = (w &&& 1) * u ^^^ (w &&& 1) * v :=
  bitMul_xor _ _ _ Nat.and_le_right

set_option maxHeartbeats 1600000 in
/-- Multiplication by a fixed GF(2⁸) constant is linear over XOR. -/
theorem Multiply_bxor (x y c : Byte) :
    Multiply (bxor x y) c = bxor (Multiply x c) (Multiply y c) := by
  apply Fin.ext
  show (((c.val &&& 1) * ((bxor x y)).val) ^^^
      (((c.val >>> 1) &&& 1) * (xtime (bxor x y)).val) ^^^
      (((c.val >>> 2) &&& 1) * (xtime (xtime (bxor x y))).val) ^^^
      (((c.val >>> 3) &&& 1) * (xtime (xtime (xtime (bxor x y)))).val) ^^^
      (((c.val >>> 4) &&& 1) * (xtime (xtime (xtime (xtime (bxor x y))))).val)) % 256 =
    ((((c.val &&& 1) * (x).val) ^^^
      (((c.val >>> 1) &&& 1) * (xtime x).val) ^^^
      (((c.val >>> 2) &&& 1) * (xtime (xtime x)).val) ^^^
      (((c.val >>> 3) &&& 1) * (xtime (xtime (xtime x))).val) ^^^
      (((c.val >>> 4) &&& 1) * (xtime (xtime (xtime (xtime x)))).val)) % 256) ^^^
    ((((c.val &&& 1) * (y).val) ^^^
      (((c.val >>> 1) &&& 1) * (xtime y).val) ^^^
      (((c.val >>> 2) &&& 1) * (xtime (xtime y)).val) ^^^
      (((c.val >>> 3) &&& 1) * (xtime (xtime (xtime y))).val) ^^^
      (((c.val >>> 4) &&& 1) * (xtime (xtime (xtime (xtime y)))).val)) % 256)
  simp only [xtime_bxor, bxor_val]
  simp only [andOneMul_xor]
  rw [← natXor_mod256]
  congr 1
  simp [Nat.xor_assoc, Nat.xor_comm, natXor_left_comm]

/-- Each entry of the InvMixColumns row transform is linear over XOR. -/
theorem invMixCol_xor (a b c d a2 b2 c2 d2 : Byte) (j : Nat) :
    invMixCol (bxor a a2) (bxor b b2) (bxor c c2) (bxor d d2) j =
      bxor (invMixCol a b c d j) (invMixCol a2 b2 c2 d2 j) := by
  rcases j with _ | _ | _ | _ <;>
    simp [invMixCol, Multiply_bxor, bxor_assoc, bxor_comm, bxor_left_comm]

set_option maxRecDepth 100000 in
theorem invMixMix_gen_a : ∀ x : Byte,
    invMixCol (mixCol x 0 0 0 0) (mixCol x 0 0 0 1) (mixCol x 0 0 0 2) (mixCol x 0 0 0 3) 0 = x ∧
    invMixCol (mixCol x 0 0 0 0) (mixCol x 0 0 0 1) (mixCol x 0 0 0 2) (mixCol x 0 0 0 3) 1 = 0 ∧
    invMixCol (mixCol x 0 0 0 0) (mixCol x 0 0 0 1) (mixCol x 0 0 0 2) (mixCol x 0 0 0 3) 2 = 0 ∧
    invMixCol (mixCol x 0 0 0 0) (mixCol x 0 0 0 1) (mixCol x 0 0 0 2) (mixCol x 0 0 0 3) 3 = 0 := by
  decide!

set_option maxRecDepth 100000 in
theorem invMixMix_gen_b : ∀ x : Byte,
    invMixCol (mixCol 0 x 0 0 0) (mixCol 0 x 0 0 1) (mixCol 0 x 0 0 2) (mixCol 0 x 0 0 3) 0 = 0 ∧
    invMixCol (mixCol 0 x 0 0 0) (mixCol 0 x 0 0 1) (mixCol 0 x 0 0 2) (mixCol 0 x 0 0 3) 1 = x ∧
    invMixCol (mixCol 0 x 0 0 0) (mixCol 0 x 0 0 1) (mixCol 0 x 0 0 2) (mixCol 0 x 0 0 3) 2 = 0 ∧
    invMixCol (mixCol 0 x 0 0 0) (mixCol 0 x 0 0 1) (mixCol 0 x 0 0 2) (mixCol 0 x 0 0 3) 3 = 0 := by
  decide!

set_option maxRecDepth 100000 in
theorem invMixMix_gen_c : ∀ x : Byte,
    invMixCol (mixCol 0 0 x 0 0) (mixCol 0 0 x 0 1) (mixCol 0 0 x 0 2) (mixCol 0 0 x 0 3) 0 = 0 ∧
    invMixCol (mixCol 0 0 x 0 0) (mixCol 0 0 x 0 1) (mixCol 0 0 x 0 2) (mixCol 0 0 x 0 3) 1 = 0 ∧
    invMixCol (mixCol 0 0 x 0 0) (mixCol 0 0 x 0 1) (mixCol 0 0 x 0 2) (mixCol 0 0 x 0 3) 2 = x ∧
    invMixCol (mixCol 0 0 x 0 0) (mixCol 0 0 x 0 1) (mixCol 0 0 x 0 2) (mixCol 0 0 x 0 3) 3 = 0 := by
  decide!

set_option maxRecDepth 100000 in
theorem invMixMix_gen_d : ∀ x : Byte,
    invMixCol (mixCol 0 0 0 x 0) (mixCol 0 0 0 x 1) (mixCol 0 0 0 x 2) (mixCol 0 0 0 x 3) 0 = 0 ∧
    invMixCol (mixCol 0 0 0 x 0) (mixCol 0 0 0 x 1) (mixCol 0 0 0 x 2) (mixCol 0 0 0 x 3) 1 = 0 ∧
    invMixCol (mixCol 0 0 0 x 0) (mixCol 0 0 0 x 1) (mixCol 0 0 0 x 2) (mixCol 0 0 0 x 3) 2 = 0 ∧
    invMixCol (mixCol 0 0 0 x 0) (mixCol 0 0 0 x 1) (mixCol 0 0 0 x 2) (mixCol 0 0 0 x 3) 3 = x := by
  decide!

/-- InvMixColumns inverts MixColumns: decompose each input byte over the four
generators, use linearity of both row transforms, and check the sixteen
composite maps on single generators exhaustively. -/
theorem invMix_mix (s : state_t) : InvMixColumns (MixColumns s) = s := by
  funext i j
  show invMixCol (mixCol (s i 0) (s i 1) (s i 2) (s i 3) 0)
      (mixCol (s i 0) (s i 1) (s i 2) (s i 3) 1)
      (mixCol (s i 0) (s i 1) (s i 2) (s i 3) 2)
      (mixCol (s i 0) (s i 1) (s i 2) (s i 3) 3) j.val = s i j
  have hsplit : ∀ t : Nat, mixCol (s i 0) (s i 1) (s i 2) (s i 3) t =
      bxor (mixCol (s i 0) 0 0 0 t)
        (bxor (mixCol 0 (s i 1) 0 0 t)
          (bxor (mixCol 0 0 (s i 2) 0 t) (mixCol 0 0 0 (s i 3) t))) := by
    intro t
    have h1 := mixCol_xor (s i 0) 0 0 0 0 (s i 1) (s i 2) (s i 3) t
    have h2 := mixCol_xor 0 (s i 1) 0 0 0 0 (s i 2) (s i 3) t
    have h3 := mixCol_xor 0 0 (s i 2) 0 0 0 0 (s i 3) t
    simp only [bxor_zero, zero_bxor] at h1 h2 h3
    rw [← h3, ← h2, ← h1]
  simp only [hsplit, invMixCol_xor]
  fin_cases j <;>
    simp [(invMixMix_gen_a (s i 0)).1, (invMixMix_gen_a (s i 0)).2.1,
      (invMixMix_gen_a (s i 0)).2.2.1, (invMixMix_gen_a (s i 0)).2.2.2,
      (invMixMix_gen_b (s i 1)).1, (invMixMix_gen_b (s i 1)).2.1,
      (invMixMix_gen_b (s i 1)).2.2.1, (invMixMix_gen_b (s i 1)).2.2.2,
      (invMixMix_gen_c (s i 2)).1, (invMixMix_gen_c (s i 2)).2.1,
      (invMixMix_gen_c (s i 2)).2.2.1, (invMixMix_gen_c (s i 2)).2.2.2,
      (invMixMix_gen_d (s i 3)).1, (invMixMix_gen_d (s i 3)).2.1,
      (invMixMix_gen_d (s i 3)).2.2.1, (invMixMix_gen_d (s i 3)).2.2.2,
      bxor_zero, zero_bxor]

/-- The inverse round loop undoes the forward rounds, leaving the trailing
SubBytes/ShiftRows pair exposed. -/
theorem invRounds_refRounds (rk : Nat) :
    ∀ (n : Nat) (s : state_t),
      invRounds rk n (ShiftRows (SubBytes (refRounds rk n s))) =
        ShiftRows (SubBytes s) := by
  intro n
  induction n with
  | zero => intro s; rfl
  | succ n ih =>
    intro s
    show invRounds rk n
        (invRound rk (n + 1) (ShiftRows (SubBytes (refRound rk (n + 1) (refRounds rk n s))))) = _
    rw [show invRound rk (n + 1) (ShiftRows (SubBytes (refRound rk (n + 1) (refRounds rk n s)))) =
        ShiftRows (SubBytes (refRounds rk n s)) from ?_]
    · exact ih s
    · simp only [invRound, refRound, norm16_eq]
      rw [invShift_shift, invSub_sub, ark_ark, invMix_mix]

/-- `InvCipher` inverts the reference cipher. -/
theorem invCipher_cipherRef (rk : Nat) (s : state_t) :
    InvCipher rk (CipherRef rk s) = s := by
  simp only [InvCipher, CipherRef]
  rw [ark_ark, invRounds_refRounds, invShift_shift, invSub_sub, norm16_eq, ark_ark]

/-! ## ECB round trip -/

theorem toState_ofState (s : state_t) : toState (ofState s) = s := by
  funext i j
  have hi := i.isLt
  have hj := j.isLt
  show s ⟨(4 * i.val + j.val) / 4, _⟩ ⟨(4 * i.val + j.val) % 4, _⟩ = s i j
  congr 1 <;> (apply Fin.ext; simp; omega)

theorem ofState_toState (b : buf16) : ofState (toState b) = b := by
  funext k
  have hk := k.isLt
  show b ⟨4 * (k.val / 4) + k.val % 4, _⟩ = b k
  congr 1
  apply Fin.ext
  simp
  omega

/-- `InvCipher` inverts the (masked) `Cipher`. -/
theorem invCipher_cipher (rk : Nat) (s : state_t) : InvCipher rk (Cipher rk s) = s := by
  rw [cipher_eq_ref, invCipher_cipherRef]

/-! ## CBC: the decrypt loop undoes the encrypt loop -/

theorem cbcEncLoop_length (rk : Nat) :
    ∀ (n : Nat) (iv : state_t) (inp : Nat → Byte), (cbcEncLoop rk n iv inp).length = n := by
  intro n
  induction n with
  | zero => intro iv inp; rfl
  | succ n ih =>
    intro iv inp
    simp only [cbcEncLoop, List.length_cons]
    rw [ih]

theorem blockAt_bytesOfBlocks (c : state_t) (rest : List state_t) :
    blockAt (bytesOfBlocks (c :: rest)) = c := by
  funext i j
  have hi := i.isLt
  have hj := j.isLt
  show stateByte ((c :: rest).getD ((4 * i.val + j.val) / 16) zeroState)
      ((4 * i.val + j.val) % 16) = c i j
  have h1 : (4 * i.val + j.val) / 16 = 0 := Nat.div_eq_of_lt (by omega)
  have h2 : (4 * i.val + j.val) % 16 = 4 * i.val + j.val := Nat.mod_eq_of_lt (by omega)
  rw [h1, h2]
  show c ⟨(4 * i.val + j.val) / 4 % 4, _⟩ ⟨(4 * i.val + j.val) % 4, _⟩ = c i j
  congr 1 <;> (apply Fin.ext; simp; omega)

theorem advance16_bytesOfBlocks (c : state_t) (rest : List state_t) :
    advance16 (bytesOfBlocks (c :: rest)) = bytesOfBlocks rest := by
  funext k
  show stateByte ((c :: rest).getD ((k + 16) / 16) zeroState) ((k + 16) % 16) =
    stateByte (rest.getD (k / 16) zeroState) (k % 16)
  have h1 : (k + 16) / 16 = k / 16 + 1 := by omega
  have h2 : (k + 16) % 16 = k % 16 := by omega
  rw [h1, h2, List.getD_cons_succ]

theorem cbcLoop_roundtrip (rk : Nat) :
    ∀ (n : Nat) (iv : state_t) (inp : Nat → Byte),
      cbcDecLoop rk n iv (bytesOfBlocks ((cbcEncLoop rk n iv inp).map Prod.fst)) =
        blocksOf inp n := by
  intro n
  induction n with
  | zero => intro iv inp; rfl
  | succ n ih =>
    intro iv inp
    simp only [cbcEncLoop, cbcDecLoop, blocksOf, List.map]
    rw [blockAt_bytesOfBlocks, advance16_bytesOfBlocks, invCipher_cipher, xorState_cancel, ih]

/-! ## CBC: shape of the encrypt loop entries -/

theorem advanceN_zero (inp : Nat → Byte) : advanceN inp 0 = inp := rfl

theorem advanceN_advance16 (inp : Nat → Byte) (k : Nat) :
    advanceN (advance16 inp) k = advanceN inp (k + 1) := by
  funext t
  have h : t + 16 * k + 16 = t + 16 * (k + 1) := by omega
  show inp (t + 16 * k + 16) = inp (t + 16 * (k + 1))
  rw [h]

theorem cbcEncLoop_spec (rk : Nat) :
    ∀ (n : Nat) (iv : state_t) (inp : Nat → Byte) (k : Nat), k < n →
      ((cbcEncLoop rk n iv inp).getD k (zeroState, zeroState)).2 =
        xorState (blockAt (advanceN inp k))
          (if k = 0 then iv
           else ((cbcEncLoop rk n iv inp).getD (k - 1) (zeroState, zeroState)).1) ∧
      ((cbcEncLoop rk n iv inp).getD k (zeroState, zeroState)).1 =
        Cipher rk (((cbcEncLoop rk n iv inp).getD k (zeroState, zeroState)).2) := by
  intro n
  induction n with
  | zero => intro iv inp k hk; exact absurd hk (Nat.not_lt_zero k)
  | succ n ih =>
    intro iv inp k hk
    rcases k with _ | k2
    · exact ⟨rfl, rfl⟩
    · have h2 := ih (Cipher rk (xorState (blockAt inp) iv)) (advance16 inp) k2
        (Nat.lt_of_succ_lt_succ hk)
      rw [advanceN_advance16] at h2
      rcases k2 with _ | k3
      · refine ⟨?_, ?_⟩
        · simp only [cbcEncLoop, List.getD_cons_succ, List.getD_cons_zero]
          have := h2.1
          simpa using this
        · simp only [cbcEncLoop, List.getD_cons_succ]
          exact h2.2
      · refine ⟨?_, ?_⟩
        · simp only [cbcEncLoop, List.getD_cons_succ]
          have := h2.1
          simpa using this
        · simp only [cbcEncLoop, List.getD_cons_succ]
          exact h2.2

theorem getD_map_pair (l : List (state_t × state_t)) :
    ∀ k : Nat, k < l.length →
      (l.map Prod.fst).getD k zeroState = (l.getD k (zeroState, zeroState)).1 ∧
      (l.map Prod.snd).getD k zeroState = (l.getD k (zeroState, zeroState)).2 := by
  induction l with
  | nil => intro k hk; exact absurd hk (Nat.not_lt_zero k)
  | cons p rest ih =>
    intro k hk
    rcases k with _ | k2
    · exact ⟨rfl, rfl⟩
    · simpa using ih k2 (by simpa using hk)

/-! ## CBC: the tail path for non-multiple lengths -/

theorem cbc_encrypt_blocks_of_multiple (key iv : buf16) (inp : Nat → Byte) (n : Nat) :
    AES128_CBC_encrypt_buffer key iv inp (16 * n) =
      ((cbcEncLoop (KeyExpansion key) n (toState iv) inp).map Prod.fst,
       (cbcEncLoop (KeyExpansion key) n (toState iv) inp).map Prod.snd) := by
  have hcnt : (16 * n + 15) / 16 = n := by omega
  have hrem : 16 * n % 16 = 0 := by omega
  simp [AES128_CBC_encrypt_buffer, hcnt, hrem]

/-! ## Remaining structural lemmas for the CBC claims -/

theorem cbc_roundtrip_core (n : Nat) (key iv : buf16) (inp : Nat → Byte) :
    AES128_CBC_decrypt_buffer key iv
        (bytesOfBlocks (AES128_CBC_encrypt_buffer key iv inp (16 * n)).1) (16 * n) =
      blocksOf inp n := by
  rw [cbc_encrypt_blocks_of_multiple]
  have hcnt : (16 * n + 15) / 16 = n := by omega
  have hrem : 16 * n % 16 = 0 := by omega
  simp only [AES128_CBC_decrypt_buffer, hcnt, hrem]
  simp only [beq_self_eq_true, if_pos, List.append_nil]
  exact cbcLoop_roundtrip (KeyExpansion key) n (toState iv) inp

/-! # The claims

Each of the following theorems (and, where present, the accompanying
counterexample and witness) settles one claim of the specification against
the embedding above.
-/

/-- C1.  For every byte `num` and mask byte `num_m`, `getSBoxValuem` returns
`t` and writes back `tm` with `t XOR tm = sbox[num XOR num_m]`. -/
theorem getSBoxValuem_matches_sbox_table (num numm : Byte) :
    bxor (getSBoxValuem num numm).1 (getSBoxValuem num numm).2 =
      sbox.getD (bxor num numm).val 0 := by
  rw [getSBoxValuem_correct, sbox_getD_eq]

/-- C3.  The masked AND gadget `_SAND` produces `(z, m)` with
`z XOR m = (p1 XOR p2) AND (q1 XOR q2)`, bitwise on bytes. -/
theorem SAND_computes_masked_and (p1 p2 q1 q2 : Byte) :
    bxor (_SAND p1 p2 q1 q2).1 (_SAND p1 p2 q1 q2).2 =
      band (bxor p1 p2) (bxor q1 q2) :=
  sand_unmask p1 p2 q1 q2

/-- C2.  The ciphertext does not depend on the 16-byte mask seed: for any
plaintext, key and two seeds, the seed-parameterised `Cipher` agrees. -/
theorem cipher_independent_of_mask_seed (P key M1 M2 : buf16) :
    CipherWithSeed (KeyExpansion key) (toState M1) (toState P) =
      CipherWithSeed (KeyExpansion key) (toState M2) (toState P) := by
  rw [cipherWithSeed_eq_ref, cipherWithSeed_eq_ref]

/-- C4.  ECB decrypt inverts ECB encrypt for every 16-byte block and key. -/
theorem ecb_encrypt_decrypt_roundtrip (input key : buf16) :
    AES128_ECB_decrypt (AES128_ECB_encrypt input key) key = input := by
  simp only [AES128_ECB_decrypt, AES128_ECB_encrypt]
  rw [toState_ofState, invCipher_cipher, ofState_toState]

set_option maxRecDepth 100000 in
/-- C5.  The FIPS-197 vector: encrypting `6bc1bee22e409f96e93d7e117393172a`
under key `2b7e151628aed2a6abf7158809cf4f3c` yields
`3ad77bb40d7a3660a89ecaf32466ef97`. -/
theorem ecb_encrypt_fips_vector :
    ∀ k : Fin 16, AES128_ECB_encrypt fipsPlain fipsKey k = fipsCipher k := by
  simp only [AES128_ECB_encrypt, cipher_eq_ref]
  decide!

/-- C6.  CBC decrypt of CBC encrypt returns the original buffer, for every
buffer whose length is a positive multiple of 16. -/
theorem cbc_encrypt_decrypt_roundtrip (n : Nat) (key iv : buf16) (inp : Nat → Byte)
    (_hn : 0 < n) :
    AES128_CBC_decrypt_buffer key iv
        (bytesOfBlocks (AES128_CBC_encrypt_buffer key iv inp (16 * n)).1) (16 * n) =
      blocksOf inp n :=
  cbc_roundtrip_core n key iv inp

/-- C6 witness: the round trip at one concrete block. -/
theorem cbc_encrypt_decrypt_roundtrip_witness :
    0 < 1 ∧
    AES128_CBC_decrypt_buffer fipsKey fipsIv
        (bytesOfBlocks (AES128_CBC_encrypt_buffer fipsKey fipsIv fipsStream (16 * 1)).1)
        (16 * 1) =
      blocksOf fipsStream 1 :=
  ⟨by decide, cbc_encrypt_decrypt_roundtrip 1 fipsKey fipsIv fipsStream (by decide)⟩

/-- C7 counterexample: it is not the case that exactly five of the eight
stage-5 output lanes complement their value lane.  Feeding the all-zero
masked pair to the (purely XOR-combining) output stage returns `0xff` on a
value lane exactly when that lane is complemented. -/
theorem stage5_value_compl_count_ne_five :
    ¬ ((Finset.univ.filter
        (fun i : Fin 8 => (outputLane (fun _ => ((0 : Byte), (0 : Byte))) i.val).1 = 255)).card
      = 5) := by
  decide

/-- C7 (amended).  Exactly four output lanes — 0, 1, 5 and 6 — complement
their value lane, and no lane complements its mask lane. -/
theorem stage5_value_compl_exactly_four :
    ((Finset.univ.filter
        (fun i : Fin 8 => (outputLane (fun _ => ((0 : Byte), (0 : Byte))) i.val).1 = 255)).card
      = 4) ∧
    (Finset.univ.filter
        (fun i : Fin 8 => (outputLane (fun _ => ((0 : Byte), (0 : Byte))) i.val).1 = 255)) =
      ({0, 1, 5, 6} : Finset (Fin 8)) ∧
    (∀ i : Fin 8, (outputLane (fun _ => ((0 : Byte), (0 : Byte))) i.val).2 = 0) := by
  decide

/-- C8 counterexample: for `length = 1`, the final output block is **not**
the Cipher of the trailing input byte zero-padded: the remainder path reads
the 16 bytes after the ⌈length/16⌉ loop iterations, i.e. past the buffer. -/
theorem cbc_tail_not_trailing_bytes :
    ¬ ((AES128_CBC_encrypt_buffer fipsKey fipsIv cexInp 1).1.getLast? =
        some (Cipher (KeyExpansion fipsKey) (zeroTail cexInp 1))) := by
  intro h
  simp only [AES128_CBC_encrypt_buffer, cbcEncLoop, List.map] at h
  norm_num at h
  have hb := congrFun (congrFun h 0) 0
  revert hb
  rw [cipher_eq_ref, cipher_eq_ref]
  decide!

/-- C8 (amended).  When `16 ∤ length` the loop runs `⌈length/16⌉` times (so
the trailing bytes are IV-chained inside the loop), and the final output
block is the Cipher — without IV chaining — of the 16 bytes *after* those
iterations, zero-filled from position `length % 16`. -/
theorem cbc_tail_block_shape (key iv : buf16) (inp : Nat → Byte) (length : Nat)
    (h : length % 16 ≠ 0) :
    (AES128_CBC_encrypt_buffer key iv inp length).1.getLast? =
      some (Cipher (KeyExpansion key)
        (zeroTail (advanceN inp ((length + 15) / 16)) (length % 16))) ∧
    (AES128_CBC_encrypt_buffer key iv inp length).1.length = (length + 15) / 16 + 1 := by
  have hb : (length % 16 == 0) = false := by simpa using h
  constructor
  · simp only [AES128_CBC_encrypt_buffer, hb, Bool.false_eq_true, if_false]
    rw [List.getLast?_concat]
  · simp only [AES128_CBC_encrypt_buffer, hb, Bool.false_eq_true, if_false]
    rw [List.length_append, List.length_map, cbcEncLoop_length]
    simp

/-- C8 witness for the amended claim, at `length = 1`. -/
theorem cbc_tail_block_shape_witness :
    (1 : Nat) % 16 ≠ 0 ∧
    ((AES128_CBC_encrypt_buffer fipsKey fipsIv cexInp 1).1.getLast? =
      some (Cipher (KeyExpansion fipsKey)
        (zeroTail (advanceN cexInp ((1 + 15) / 16)) (1 % 16))) ∧
    (AES128_CBC_encrypt_buffer fipsKey fipsIv cexInp 1).1.length = (1 + 15) / 16 + 1) :=
  ⟨by decide, cbc_tail_block_shape fipsKey fipsIv cexInp 1 (by decide)⟩

/-- C9.  CBC encryption mutates the caller's input buffer: after a call of
length `16*n`, input block `k` holds its original contents XORed with the
chaining IV for that block (the supplied IV for block 0, the previous
ciphertext block after), and output block `k` is the Cipher of exactly that
xored block. -/
theorem cbc_encrypt_mutates_input (key iv : buf16) (inp : Nat → Byte) (n k : Nat)
    (hk : k < n) :
    (AES128_CBC_encrypt_buffer key iv inp (16 * n)).2.getD k zeroState =
      xorState (blockAt (advanceN inp k))
        (if k = 0 then toState iv
         else (AES128_CBC_encrypt_buffer key iv inp (16 * n)).1.getD (k - 1) zeroState) ∧
    (AES128_CBC_encrypt_buffer key iv inp (16 * n)).1.getD k zeroState =
      Cipher (KeyExpansion key)
        ((AES128_CBC_encrypt_buffer key iv inp (16 * n)).2.getD k zeroState) := by
  rw [cbc_encrypt_blocks_of_multiple]
  have hlen := cbcEncLoop_length (KeyExpansion key) n (toState iv) inp
  have hspec := cbcEncLoop_spec (KeyExpansion key) n (toState iv) inp k hk
  have hmapk := getD_map_pair (cbcEncLoop (KeyExpansion key) n (toState iv) inp) k
    (by rw [hlen]; exact hk)
  rcases k with _ | k2
  · refine ⟨?_, ?_⟩
    · rw [hmapk.2]
      simpa using hspec.1
    · rw [hmapk.1, hmapk.2]
      exact hspec.2
  · have hmapk2 := getD_map_pair (cbcEncLoop (KeyExpansion key) n (toState iv) inp) k2
      (by rw [hlen]; omega)
    refine ⟨?_, ?_⟩
    · rw [hmapk.2]
      have h1 := hspec.1
      simp only [Nat.succ_ne_zero, if_false, Nat.add_sub_cancel] at h1 ⊢
      rw [h1, hmapk2.1]
    · rw [hmapk.1, hmapk.2]
      exact hspec.2

/-- C9 witness at one block. -/
theorem cbc_encrypt_mutates_input_witness :
    0 < 1 ∧
    ((AES128_CBC_encrypt_buffer fipsKey fipsIv fipsStream (16 * 1)).2.getD 0 zeroState =
      xorState (blockAt (advanceN fipsStream 0))
        (if 0 = 0 then toState fipsIv
         else (AES128_CBC_encrypt_buffer fipsKey fipsIv fipsStream (16 * 1)).1.getD
            (0 - 1) zeroState) ∧
    (AES128_CBC_encrypt_buffer fipsKey fipsIv fipsStream (16 * 1)).1.getD 0 zeroState =
      Cipher (KeyExpansion fipsKey)
        ((AES128_CBC_encrypt_buffer fipsKey fipsIv fipsStream (16 * 1)).2.getD 0 zeroState)) :=
  ⟨by decide, cbc_encrypt_mutates_input fipsKey fipsIv fipsStream 1 0 (by decide)⟩

/-- C10.  The ECB entry points leave the caller's input and key buffers
unchanged: modelled as transformers on the memory an ECB call can reach,
they write only the output buffer and the round-key store. -/
theorem ecb_buffers_not_mutated (m : ECBMem) :
    (ecbEncryptMem m).inBuf = m.inBuf ∧ (ecbEncryptMem m).keyBuf = m.keyBuf ∧
    (ecbDecryptMem m).inBuf = m.inBuf ∧ (ecbDecryptMem m).keyBuf = m.keyBuf ∧
    (ecbEncryptMem m).outBuf = AES128_ECB_encrypt m.inBuf m.keyBuf ∧
    (ecbDecryptMem m).outBuf = AES128_ECB_decrypt m.inBuf m.keyBuf :=
  ⟨rfl, rfl, rfl, rfl, rfl, rfl⟩

end TinyAES
